import Mathlib

/-!
Verification development for the AutoSenseAI OEM predictive-maintenance core.

The Python source (predictive_engine.py, telemetry.py, agents.py) is shallowly
embedded below.  Numeric sensor values are modelled by exact rationals, Python
`round` by banker's rounding on rationals, Python `int()` by truncation toward
zero, and the wall clock `datetime.now()` by an explicit natural-number tick
count (86400 ticks per calendar day).  The fitted scikit-learn models
(StandardScaler, IsolationForest, RandomForestClassifier) are opaque fitted
state: they are modelled as an explicit `ModelState` of functions from the
9-entry feature vector to the raw model outputs (decision-function score,
outlier vote, class-probability vector), which is exactly the interface the
source code consumes.
-/

namespace AutoSense

/-- Banker's rounding of a rational to an integer, the semantics of Python's
built-in `round`: ties (fractional part exactly 1/2) go to the even integer. -/
def bankersRound (y : ℚ) : ℤ :=
  if y - (⌊y⌋ : ℚ) < 1/2 then ⌊y⌋
  else if 1/2 < y - (⌊y⌋ : ℚ) then ⌊y⌋ + 1
  else if ⌊y⌋ % 2 = 0 then ⌊y⌋ else ⌊y⌋ + 1

/-- Python `round(x, nd)` on rationals. -/
def pyRound (nd : ℕ) (x : ℚ) : ℚ :=
  let m : ℚ := (10 : ℚ) ^ nd
  ((bankersRound (x * m) : ℤ) : ℚ) / m

/-- Python `int(x)`: truncation toward zero. -/
def pyInt (x : ℚ) : ℤ :=
  if 0 ≤ x then ⌊x⌋ else -⌊-x⌋

/-- Arithmetic mean of a list of rationals, `np.mean`. -/
def mean (l : List ℚ) : ℚ := l.sum / (l.length : ℚ)

/-- One telemetry snapshot: the named numeric sensor fields consumed by the
core (absent fields are `none`, matching `dict.get` returning `None`) plus the
fault-code list. -/
structure Telemetry where
  engineTemp : Option ℚ
  oilPressure : Option ℚ
  batteryVoltage : Option ℚ
  rpm : Option ℚ
  speed : Option ℚ
  vibrationLevel : Option ℚ
  brakeWear : Option ℚ
  coolantTemp : Option ℚ
  tirePressureFL : Option ℚ
  tirePressureFR : Option ℚ
  tirePressureRL : Option ℚ
  tirePressureRR : Option ℚ
  fuelLevel : Option ℚ
  errorCodes : List String
deriving DecidableEq

/-- The telemetry mapping with no readings at all (the empty dict). -/
def emptyTel : Telemetry :=
  ⟨none, none, none, none, none, none, none, none, none, none, none, none, none, []⟩

/-- String-keyed access `telemetry.get(indicator)` for the indicator names the
engine reads. -/
def tGet (t : Telemetry) : String → Option ℚ
  | "engine_temp" => t.engineTemp
  | "oil_pressure" => t.oilPressure
  | "battery_voltage" => t.batteryVoltage
  | "rpm" => t.rpm
  | "speed" => t.speed
  | "vibration_level" => t.vibrationLevel
  | "brake_wear" => t.brakeWear
  | "coolant_temp" => t.coolantTemp
  | "tire_pressure_fl" => t.tirePressureFL
  | "tire_pressure_fr" => t.tirePressureFR
  | "tire_pressure_rl" => t.tirePressureRL
  | "tire_pressure_rr" => t.tirePressureRR
  | _ => none

/-- Association-list lookup used for the static string-keyed tables. -/
def assocFind {α : Type} : List (String × α) → String → Option α
  | [], _ => none
  | (k, v) :: rest, key => if key = k then some v else assocFind rest key

/-- The `normal_ranges` table of `_calculate_indicator_health`. -/
def normalRangesList : List (String × (ℚ × ℚ)) :=
  [("engine_temp", (85, 105)),
   ("oil_pressure", (25, 65)),
   ("battery_voltage", (124/10, 147/10)),
   ("rpm", (800, 6500)),
   ("speed", (0, 120)),
   ("vibration_level", (1/10, 2)),
   ("brake_wear", (0, 30)),
   ("coolant_temp", (80, 100)),
   ("tire_pressure_fl", (30, 35)),
   ("tire_pressure_fr", (30, 35)),
   ("tire_pressure_rl", (30, 35)),
   ("tire_pressure_rr", (30, 35))]

def normalRanges (indicator : String) : Option (ℚ × ℚ) :=
  assocFind normalRangesList indicator

/-- Result record of `_calculate_indicator_health`. -/
structure IndicatorHealth where
  score : ℚ
  status : String
  deviation : ℚ
deriving DecidableEq

/-- The deviation rule of `_calculate_indicator_health`: distance from the
band midpoint normalized by the half-range inside the band, and
`1 + distance_beyond_bound / (half_range)` outside it. -/
def deviationFor (minVal maxVal value : ℚ) : ℚ :=
  if value < minVal then (minVal - value) / ((maxVal - minVal) * (1/2)) + 1
  else if value > maxVal then (value - maxVal) / ((maxVal - minVal) * (1/2)) + 1
  else |value - (minVal + maxVal) / 2| / ((maxVal - minVal) / 2)

/-- The raw (unrounded) indicator health score `max(0, 100 - deviation*30)`. -/
def rawScoreFor (minVal maxVal value : ℚ) : ℚ :=
  max 0 (100 - deviationFor minVal maxVal value * 30)

/-- `PredictiveMaintenanceEngine._calculate_indicator_health`: midpoint
deviation inside the configured band, a discontinuous jump past 1 outside it,
score `max(0, 100 - deviation*30)`, status from the unrounded score. -/
def calculate_indicator_health (indicator : String) (value : ℚ) : IndicatorHealth :=
  match normalRanges indicator with
  | none => ⟨85, "unknown", 0⟩
  | some (minVal, maxVal) =>
    ⟨pyRound 1 (rawScoreFor minVal maxVal value),
     if rawScoreFor minVal maxVal value < 50 then "critical"
     else if rawScoreFor minVal maxVal value < 70 then "warning"
     else "normal",
     pyRound 2 (deviationFor minVal maxVal value)⟩

/-- Static per-component configuration from `COMPONENT_FAILURE_PATTERNS`. -/
structure ComponentConfig where
  indicators : List String
  failureThreshold : ℚ
  mtbfDays : ℤ
deriving DecidableEq

/-- The `COMPONENT_FAILURE_PATTERNS` table, in source (insertion) order. -/
def componentFailurePatterns : List (String × ComponentConfig) :=
  [("engine", ⟨["engine_temp", "oil_pressure", "vibration_level", "rpm"], 7/10, 365⟩),
   ("battery", ⟨["battery_voltage"], 6/10, 730⟩),
   ("brakes", ⟨["brake_wear", "vibration_level"], 65/100, 180⟩),
   ("cooling_system", ⟨["engine_temp", "coolant_temp"], 7/10, 545⟩),
   ("tires", ⟨["tire_pressure_fl", "tire_pressure_fr", "tire_pressure_rl", "tire_pressure_rr"], 1/2, 365⟩),
   ("transmission", ⟨["vibration_level", "rpm", "speed"], 3/4, 730⟩)]

/-- One contributing issue recorded for an out-of-band indicator. -/
structure Issue where
  indicator : String
  value : ℚ
  status : String
  deviation : ℚ
deriving DecidableEq

/-- The per-component health record built by `analyze_component_health`. -/
structure CompRec where
  healthScore : ℚ
  failureRisk : ℚ
  status : String
  daysToPotentialFailure : ℤ
  predictedFailureDate : ℕ
  issues : List Issue
  maintenanceUrgency : String
deriving DecidableEq

/-- Calendar-day number of a clock tick value (86400 ticks per day); models
taking the `%Y-%m-%d` date of a `datetime`. -/
def dateOf (now : ℕ) : ℕ := now / 86400

/-- The rounded health scores gathered in the indicator loop of
`analyze_component_health` (absent indicators are skipped). -/
def gatherScores (t : Telemetry) (cfg : ComponentConfig) : List ℚ :=
  cfg.indicators.filterMap fun ind =>
    (tGet t ind).map fun v => (calculate_indicator_health ind v).score

/-- The issues gathered in the same loop: one entry for every present
indicator whose status is not "normal". -/
def gatherIssues (t : Telemetry) (cfg : ComponentConfig) : List Issue :=
  cfg.indicators.filterMap fun ind =>
    (tGet t ind).bind fun v =>
      let h := calculate_indicator_health ind v
      if h.status ≠ "normal" then some ⟨ind, v, h.status, h.deviation⟩ else none

/-- Days-to-failure estimate: the sharp 0.3-scaled branch past the configured
threshold, the gentle branch otherwise, truncated to an integer. -/
def daysFor (cfg : ComponentConfig) (failureRisk : ℚ) : ℤ :=
  if failureRisk ≥ cfg.failureThreshold then
    pyInt ((cfg.mtbfDays : ℚ) * (1 - failureRisk) * (3/10))
  else
    pyInt ((cfg.mtbfDays : ℚ) * (1 - failureRisk))

/-- Component status thresholds on the unrounded average health. -/
def statusFor (avgHealth : ℚ) : String :=
  if avgHealth < 50 then "critical"
  else if avgHealth < 70 then "warning"
  else "healthy"

/-- Maintenance-urgency tier from the days-to-failure estimate. -/
def urgencyFor (daysToFailure : ℤ) : String :=
  if daysToFailure < 7 then "immediate"
  else if daysToFailure < 30 then "soon"
  else "scheduled"

/-- Body of `analyze_component_health` for one component, given the current
calendar day `today`.  Returns `none` when no configured indicator is present
in the telemetry (the component is omitted from the map).  Note that the
stored `days_to_potential_failure` is the raw truncated estimate, while the
`max 1` floor is applied only inside the predicted-failure-date computation,
exactly as in the source. -/
def componentRecord (today : ℕ) (t : Telemetry) (cfg : ComponentConfig) : Option CompRec :=
  if gatherScores t cfg = [] then none
  else
    let avgHealth := mean (gatherScores t cfg)
    let failureRisk := 1 - avgHealth / 100
    let daysToFailure := daysFor cfg failureRisk
    some ⟨pyRound 1 avgHealth, pyRound 3 failureRisk, statusFor avgHealth, daysToFailure,
          today + (max 1 daysToFailure).toNat, gatherIssues t cfg,
          urgencyFor daysToFailure⟩

/-- `analyze_component_health` with the clock's calendar day passed
explicitly. -/
def analyze_component_health_on (today : ℕ) (t : Telemetry) : List (String × CompRec) :=
  componentFailurePatterns.filterMap fun p =>
    (componentRecord today t p.2).map fun rec => (p.1, rec)

/-- `PredictiveMaintenanceEngine.analyze_component_health`: the source reads
`datetime.now()` once; only its calendar day reaches the output (via
`predicted_failure_date`). -/
def analyze_component_health (now : ℕ) (t : Telemetry) : List (String × CompRec) :=
  analyze_component_health_on (dateOf now) t

/-- `prepare_features`: the 9-entry feature vector, substituting a fixed
nominal default for every absent field and averaging the four tire
pressures. -/
def prepare_features (t : Telemetry) : List ℚ :=
  let tirePressures :=
    [t.tirePressureFL.getD 32, t.tirePressureFR.getD 32,
     t.tirePressureRL.getD 32, t.tirePressureRR.getD 32]
  [t.engineTemp.getD 95,
   t.oilPressure.getD 45,
   t.batteryVoltage.getD (27/2),
   t.rpm.getD 3000,
   t.speed.getD 60,
   t.vibrationLevel.getD 1,
   t.brakeWear.getD 20,
   t.coolantTemp.getD 90,
   mean tirePressures]

/-- The engine's fitted model state (scaler composed with the two fitted
models), abstracted as the raw model outputs on a feature vector: the
IsolationForest decision-function score and outlier vote, and the
RandomForest class-probability vector `predict_proba(...)[0]`. -/
structure ModelState where
  anomalyScoreFn : List ℚ → ℚ
  anomalyVoteFn : List ℚ → Bool
  probaFn : List ℚ → List ℚ

/-- Result record of `detect_anomalies`.  The anomaly probability is the
logistic squashing `1 / (1 + exp(anomaly_score * 2))`, a real number. -/
structure AnomalyResult where
  isAnomaly : Bool
  anomalyScore : ℚ
  anomalyProbability : ℝ
  confidence : ℚ

/-- The logistic squashing of the decision-function score used for
`anomaly_probability`. -/
noncomputable def anomalyProbOf (a : ℚ) : ℝ := 1 / (1 + Real.exp ((a : ℝ) * 2))

/-- `PredictiveMaintenanceEngine.detect_anomalies`. -/
noncomputable def detect_anomalies (m : ModelState) (t : Telemetry) : AnomalyResult :=
  let a := m.anomalyScoreFn (prepare_features t)
  ⟨m.anomalyVoteFn (prepare_features t), a, anomalyProbOf a,
   if |a| < 1/2 then |a| / (1/2) else 1⟩

/-- Result record of `predict_failure`. -/
structure FailureResult where
  failureProbability : ℚ
  riskLevel : String
  confidence : ℚ
deriving DecidableEq

/-- Python `max` over a class-probability list; the empty case is unreachable
because `predict_proba` always returns at least one class column. -/
def pyMaxList : List ℚ → ℚ
  | [] => 0
  | x :: xs => xs.foldl max x

/-- `PredictiveMaintenanceEngine.predict_failure`. -/
def predict_failure (m : ModelState) (t : Telemetry) : FailureResult :=
  let proba := m.probaFn (prepare_features t)
  let fp := if 1 < proba.length then proba.getD 1 0 else 0
  let risk :=
    if fp ≥ 7/10 then "critical"
    else if fp ≥ 2/5 then "high"
    else if fp ≥ 1/5 then "medium"
    else "low"
  ⟨fp, risk, pyMaxList proba⟩

/-- One maintenance recommendation.  The source builds free-text `action` and
`reason` strings by interpolating the component name, health score and risk
percentage; the record keeps the interpolated payload instead of the rendered
text. -/
structure Recommendation where
  priority : String
  component : String
  healthScore : ℚ
  failureRisk : ℚ
  deadline : ℕ
deriving DecidableEq

/-- The full `PredictionReport` dictionary. -/
structure Report where
  timestamp : ℕ
  vehicleInfo : Option String
  anomalyDetection : AnomalyResult
  failurePrediction : FailureResult
  componentHealth : List (String × CompRec)
  overallHealthScore : ℚ
  criticalComponents : List String
  warningComponents : List String
  recommendations : List Recommendation
  requiresImmediateAttention : Bool

/-- Names of the components whose record has a given status. -/
def componentsWithStatus (s : String) (ch : List (String × CompRec)) : List String :=
  (ch.filter fun p => p.2.status = s).map Prod.fst

/-- Unrounded overall health: mean of the per-component health scores, 100
when no component was evaluated. -/
def overallOf (ch : List (String × CompRec)) : ℚ :=
  if ch = [] then 100 else mean (ch.map fun p => p.2.healthScore)

/-- The unsorted recommendations list: one "high" entry per critical
component, one "medium" entry per warning component, iteration order. -/
def recsOf (ch : List (String × CompRec)) : List Recommendation :=
  ch.filterMap fun p =>
    if p.2.status = "critical" then
      some ⟨"high", p.1, p.2.healthScore, p.2.failureRisk, p.2.predictedFailureDate⟩
    else if p.2.status = "warning" then
      some ⟨"medium", p.1, p.2.healthScore, p.2.failureRisk, p.2.predictedFailureDate⟩
    else none

/-- The source's stable `list.sort` by the binary key (0 for "high", 1
otherwise), realized as the order-preserving partition: all "high" entries
first, the rest after, each tier in original order. -/
def sortRecs (l : List Recommendation) : List Recommendation :=
  l.filter (fun r => r.priority = "high") ++ l.filter (fun r => ¬ r.priority = "high")

/-- `PredictiveMaintenanceEngine.generate_prediction_report`. -/
noncomputable def generate_prediction_report (now : ℕ) (m : ModelState)
    (t : Telemetry) (vehicleInfo : Option String) : Report :=
  let componentHealth := analyze_component_health now t
  ⟨now, vehicleInfo, detect_anomalies m t, predict_failure m t, componentHealth,
   pyRound 1 (overallOf componentHealth),
   componentsWithStatus "critical" componentHealth,
   componentsWithStatus "warning" componentHealth,
   sortRecs (recsOf componentHealth),
   decide (0 < (componentsWithStatus "critical" componentHealth).length)
     || decide ((predict_failure m t).riskLevel = "critical")⟩

/-! ### Telemetry Anomaly Analyzer (telemetry.py) -/

/-- `TelemetrySimulator.WARNING_THRESHOLDS` as (min, max) pairs. -/
def warningThresholds : List (String × (ℚ × ℚ)) :=
  [("engine_temp", (70, 110)),
   ("oil_pressure", (20, 70)),
   ("battery_voltage", (118/10, 15)),
   ("vibration_level", (0, 7/2)),
   ("brake_wear", (0, 60)),
   ("tire_pressure", (28, 38)),
   ("coolant_temp", (70, 115))]

/-- `TelemetrySimulator.CRITICAL_THRESHOLDS` as (min, max) pairs. -/
def criticalThresholds : List (String × (ℚ × ℚ)) :=
  [("engine_temp", (60, 125)),
   ("oil_pressure", (15, 80)),
   ("battery_voltage", (105/10, 16)),
   ("vibration_level", (0, 5)),
   ("brake_wear", (0, 80)),
   ("tire_pressure", (25, 42)),
   ("coolant_temp", (60, 130))]

/-- The value carried by one anomaly entry: a numeric reading or a fault-code
string. -/
inductive AnomalyValue
  | num (q : ℚ)
  | code (s : String)
deriving DecidableEq

/-- One anomaly entry of the analyzer report.  The free-text `message` of the
source interpolates the same parameter name and value and is represented by
that payload. -/
structure AnomalyEntry where
  parameter : String
  value : AnomalyValue
  severity : String
deriving DecidableEq

/-- The analyzer's output dictionary. -/
structure AnalyzerReport where
  anomalies : List AnomalyEntry
  severityScore : ℕ
  overallStatus : String
  healthScore : ℤ
  anomalyCount : ℕ
deriving DecidableEq

/-- Out-of-band test against an optional (min, max) band; a missing band
(the source's `float('-inf')` / `float('inf')` defaults) never fires. -/
def outOfBand (band : Option (ℚ × ℚ)) (v : ℚ) : Bool :=
  match band with
  | some (mn, mx) => v < mn || mx < v
  | none => false

/-- One scalar indicator check of `analyze_telemetry_anomalies`: critical band
first (+30), then warning band (+15), else silent. -/
def checkScalar (param : String) (v : ℚ) (displayName : String) :
    Option AnomalyEntry × ℕ :=
  if outOfBand (assocFind criticalThresholds param) v then
    (some ⟨displayName, .num v, "critical"⟩, 30)
  else if outOfBand (assocFind warningThresholds param) v then
    (some ⟨displayName, .num v, "warning"⟩, 15)
  else (none, 0)

/-- One per-wheel tire-pressure check: outside [28,38] is an anomaly, graded
critical (+20) outside [25,42] and warning (+10) otherwise. -/
def checkTire (position : String) (pressure : ℚ) : Option AnomalyEntry × ℕ :=
  if pressure < 28 || 38 < pressure then
    if pressure < 25 || 42 < pressure then
      (some ⟨"Tire Pressure (" ++ position ++ ")", .num pressure, "critical"⟩, 20)
    else
      (some ⟨"Tire Pressure (" ++ position ++ ")", .num pressure, "warning"⟩, 10)
  else (none, 0)

/-- One fault-code check: +25 each, graded critical when the code starts with
"P07" or "U". -/
def checkCode (code : String) : AnomalyEntry × ℕ :=
  (⟨"Error Code", .code code,
    if code.startsWith "P07" || code.startsWith "U" then "critical" else "warning"⟩, 25)

/-- The six scalar checks of `analyze_telemetry_anomalies`, with the source's
per-parameter `dict.get` defaults. -/
def scalarChecks (t : Telemetry) : List (String × ℚ × String) :=
  [("engine_temp", t.engineTemp.getD 90, "Engine Temperature"),
   ("oil_pressure", t.oilPressure.getD 40, "Oil Pressure"),
   ("battery_voltage", t.batteryVoltage.getD (126/10), "Battery Voltage"),
   ("vibration_level", t.vibrationLevel.getD 1, "Vibration Level"),
   ("brake_wear", t.brakeWear.getD 20, "Brake Wear"),
   ("coolant_temp", t.coolantTemp.getD 90, "Coolant Temperature")]

/-- The four per-wheel tire readings, defaulting each absent pressure to 32. -/
def tireChecks (t : Telemetry) : List (String × ℚ) :=
  [("Front Left", t.tirePressureFL.getD 32),
   ("Front Right", t.tirePressureFR.getD 32),
   ("Rear Left", t.tirePressureRL.getD 32),
   ("Rear Right", t.tirePressureRR.getD 32)]

/-- `telemetry.analyze_telemetry_anomalies`: rule-based threshold classifier
over one snapshot, accumulating a severity score across the scalar, tire and
fault-code sections. -/
def analyze_telemetry_anomalies (t : Telemetry) : AnalyzerReport :=
  let scalarResults := (scalarChecks t).map fun c => checkScalar c.1 c.2.1 c.2.2
  let tireResults := (tireChecks t).map fun c => checkTire c.1 c.2
  let codeResults := t.errorCodes.map checkCode
  let anomalies :=
    scalarResults.filterMap Prod.fst ++ tireResults.filterMap Prod.fst
      ++ codeResults.map Prod.fst
  let severityScore :=
    (scalarResults.map Prod.snd).sum + (tireResults.map Prod.snd).sum
      + (codeResults.map Prod.snd).sum
  let overallStatus :=
    if 50 ≤ severityScore then "critical"
    else if 20 ≤ severityScore then "warning"
    else "healthy"
  ⟨anomalies, severityScore, overallStatus,
   max 0 (100 - (severityScore : ℤ)), anomalies.length⟩

/-! ### Diagnosis Mapper (agents.py, DiagnosisAgent) -/

/-- Character-list version of string prefix test. -/
def beginsWith : List Char → List Char → Bool
  | [], _ => true
  | _ :: _, [] => false
  | a :: as, b :: bs => a = b && beginsWith as bs

/-- Substring search over character lists: does the needle occur anywhere in
the haystack?  Models Python's `needle in haystack` on strings. -/
def containsSub (pat : List Char) : List Char → Bool
  | [] => beginsWith pat []
  | c :: rest => beginsWith pat (c :: rest) || containsSub pat rest

/-- Python `needle in haystack` for strings. -/
def strContains (haystack needle : String) : Bool :=
  containsSub needle.data haystack.data

/-- Python `str.lower()`, mapping each character to lower case. -/
def strLower (s : String) : String := ⟨s.data.map Char.toLower⟩

/-- One knowledge-base entry of `DIAGNOSIS_KNOWLEDGE_BASE`. -/
structure KBEntry where
  possibleCauses : List String
  recommendedActions : List String
  severityMultiplier : ℚ
deriving DecidableEq

/-- `DiagnosisAgent.DIAGNOSIS_KNOWLEDGE_BASE` flattened to
(component, issue-key, entry) triples. -/
def knowledgeBase : List (String × String × KBEntry) :=
  [("engine", "high_temp",
    ⟨["Coolant leak", "Thermostat failure", "Radiator blockage", "Water pump failure"],
     ["Check coolant level", "Inspect thermostat", "Flush radiator", "Test water pump"], 3/2⟩),
   ("engine", "low_oil_pressure",
    ⟨["Oil leak", "Worn oil pump", "Clogged oil filter", "Wrong oil viscosity"],
     ["Check oil level", "Replace oil filter", "Inspect for leaks", "Oil change"], 9/5⟩),
   ("engine", "high_vibration",
    ⟨["Engine mount wear", "Misfiring cylinder", "Unbalanced components", "Worn bearings"],
     ["Check engine mounts", "Inspect spark plugs", "Balance rotating parts", "Check bearings"], 13/10⟩),
   ("battery", "low_voltage",
    ⟨["Aging battery", "Alternator failure", "Parasitic drain", "Loose connections"],
     ["Test battery capacity", "Check alternator output", "Inspect electrical system", "Clean terminals"], 6/5⟩),
   ("brakes", "high_wear",
    ⟨["Normal wear", "Aggressive driving", "Stuck caliper", "Warped rotors"],
     ["Replace brake pads", "Inspect calipers", "Check rotors", "Brake fluid flush"], 8/5⟩),
   ("cooling_system", "high_coolant_temp",
    ⟨["Low coolant", "Thermostat stuck", "Fan failure", "Head gasket leak"],
     ["Top up coolant", "Replace thermostat", "Test cooling fan", "Pressure test system"], 17/10⟩),
   ("tires", "low_pressure",
    ⟨["Slow puncture", "Valve stem leak", "Temperature change", "Rim damage"],
     ["Inspect tire", "Check valve stem", "Inflate to spec", "Check rim seal"], 11/10⟩)]

/-- Lookup of `DIAGNOSIS_KNOWLEDGE_BASE.get(component, {}).get(key, ...)`. -/
def kbGet (component key : String) : Option KBEntry :=
  (knowledgeBase.find? fun e => e.1 = component ∧ e.2.1 = key).map fun e => e.2.2

/-- The knowledge-base entry selected for one issue inside the loop of
`DiagnosisAgent._diagnose_component` (the nested if/elif keyword matching on
the indicator name, status and value). -/
def selectKBEntry (component : String) (issue : Issue) : Option KBEntry :=
  let ind := strLower issue.indicator
  if strContains ind "temp" && strContains issue.status "high" then
    (kbGet component "high_temp").orElse fun _ => kbGet component "high_coolant_temp"
  else if strContains ind "pressure" && issue.value < 30 then
    (kbGet component "low_oil_pressure").orElse fun _ => kbGet component "low_pressure"
  else if strContains ind "voltage" then kbGet component "low_voltage"
  else if strContains ind "vibration" then kbGet component "high_vibration"
  else if strContains ind "wear" then kbGet component "high_wear"
  else none

/-- Accumulator step of the issue loop in `_diagnose_component`: extend the
cause and action lists (with the generic defaults when no entry matched) and
keep the maximum severity multiplier. -/
def diagStep (component : String) (acc : List String × List String × ℚ)
    (issue : Issue) : List String × List String × ℚ :=
  match selectKBEntry component issue with
  | some e =>
    (acc.1 ++ e.possibleCauses, acc.2.1 ++ e.recommendedActions,
     max acc.2.2 e.severityMultiplier)
  | none =>
    (acc.1 ++ ["Unknown cause"], acc.2.1 ++ ["General inspection"], max acc.2.2 1)

/-- Deduplication keeping the first occurrence of each element; models the
source's `list(set(...))`, whose order is arbitrary but deterministic. -/
def dedupFirst : List String → List String
  | [] => []
  | a :: as => a :: dedupFirst (as.filter fun b => b ≠ a)
termination_by l => l.length
decreasing_by
  simp only [List.length_cons]
  exact Nat.lt_succ_of_le (List.length_filter_le _ _)

/-- The static `repair_time_map` with default 60 minutes. -/
def repairTimeMap (component : String) : ℕ :=
  (assocFind [("engine", 120), ("battery", 30), ("brakes", 90),
              ("cooling_system", 60), ("tires", 45), ("transmission", 180)]
    component).getD 60

/-- `DiagnosisAgent._estimate_parts` with its default. -/
def estimateParts (component : String) : List String :=
  (assocFind
    [("engine", ["Oil filter", "Spark plugs", "Engine oil"]),
     ("battery", ["Battery", "Alternator belt"]),
     ("brakes", ["Brake pads", "Brake rotors", "Brake fluid"]),
     ("cooling_system", ["Coolant", "Thermostat", "Radiator hose"]),
     ("tires", ["Tire", "Valve stem", "TPMS sensor"]),
     ("transmission", ["Transmission fluid", "Filter", "Gaskets"])]
    component).getD ["Various parts"]

/-- One synthesized diagnosis record. -/
structure Diagnosis where
  component : String
  healthScore : ℚ
  failureRisk : ℚ
  primaryCause : String
  possibleCauses : List String
  recommendedActions : List String
  priorityScore : ℚ
  estimatedRepairMinutes : ℕ
  partsLikelyNeeded : List String
deriving DecidableEq

/-- `DiagnosisAgent._diagnose_component`. -/
def diagnose_component (component : String) (health : CompRec) : Diagnosis :=
  let acc := health.issues.foldl (diagStep component) ([], [], 1)
  let possibleCauses := (dedupFirst acc.1).take 4
  let recommendedActions := (dedupFirst acc.2.1).take 4
  let priorityScore := min 100 ((100 - health.healthScore) * acc.2.2)
  ⟨component, health.healthScore, health.failureRisk,
   possibleCauses.headD "Requires inspection",
   possibleCauses, recommendedActions, pyRound 1 priorityScore,
   repairTimeMap component, estimateParts component⟩

/-- Stable insertion into a list sorted descending by priority score: the new
element (which comes from an earlier position) goes before the first element
whose score does not exceed it. -/
def insertByPriority (d : Diagnosis) : List Diagnosis → List Diagnosis
  | [] => [d]
  | e :: es =>
    if e.priorityScore ≤ d.priorityScore then d :: e :: es
    else e :: insertByPriority d es

/-- Python's stable `sorted(..., key=priority_score, reverse=True)`. -/
def sortByPriorityDesc : List Diagnosis → List Diagnosis
  | [] => []
  | d :: ds => insertByPriority d (sortByPriorityDesc ds)

/-- The result dictionary of `DiagnosisAgent.process`. -/
structure DiagnosisResult where
  diagnoses : List Diagnosis
  totalIssues : ℕ
  requiresImmediateAction : Bool
  estimatedRepairTime : ℕ
deriving DecidableEq

/-- `DiagnosisAgent.process`: diagnose every component whose status is
critical or warning, then prioritize. -/
def diagnosisProcess (componentHealth : List (String × CompRec)) : DiagnosisResult :=
  let diagnoses := componentHealth.filterMap fun p =>
    if p.2.status = "critical" ∨ p.2.status = "warning" then
      some (diagnose_component p.1 p.2)
    else none
  ⟨sortByPriorityDesc diagnoses, diagnoses.length,
   diagnoses.any fun d => 80 < d.priorityScore,
   (diagnoses.map fun d => d.estimatedRepairMinutes).sum⟩

/-! ### Orchestration Sequencer (agents.py, PredictionAgent / MasterAgent) -/

/-- The result dictionary of `PredictionAgent.process`: the report plus the
gating flags handed to the master agent.  The `alerts_to_create` list keeps
the components of the high-priority recommendations. -/
structure PredictionOutcome where
  report : Report
  alertComponents : List String
  requiresDiagnosis : Bool
  requiresScheduling : Bool

/-- `PredictionAgent.process`. -/
noncomputable def predictionProcess (now : ℕ) (m : ModelState) (t : Telemetry)
    (vehicleInfo : Option String) : PredictionOutcome :=
  let report := generate_prediction_report now m t vehicleInfo
  ⟨report,
   (report.recommendations.filter fun r => r.priority = "high").map fun r => r.component,
   decide (0 < report.criticalComponents.length),
   report.requiresImmediateAttention⟩

/-- Summary of one `MasterAgent.orchestrate` run: which stages executed (in
order), and the persisted vehicle health/status bucket. -/
structure WorkflowResult where
  stages : List String
  healthScore : ℚ
  status : String

/-- `MasterAgent.orchestrate`: prediction always runs; diagnosis runs iff the
prediction requests it; scheduling runs iff the prediction requested
scheduling and the diagnosis result exists (the diagnosis result dictionary
is always non-empty, hence truthy); the customer stage runs iff scheduling
ran and reported `booking_created` (always true in `SchedulingAgent.process`).
The health status bucket mirrors the source's thresholds. -/
noncomputable def orchestrate (now : ℕ) (m : ModelState) (t : Telemetry)
    (vehicleInfo : Option String) : WorkflowResult :=
  let pred := predictionProcess now m t vehicleInfo
  let diagnosisResult : Option DiagnosisResult :=
    if pred.requiresDiagnosis then
      some (diagnosisProcess pred.report.componentHealth)
    else none
  let schedulingRan := pred.requiresScheduling && diagnosisResult.isSome
  let bookingCreated := true
  let stages :=
    ["prediction"]
      ++ (if diagnosisResult.isSome then ["diagnosis"] else [])
      ++ (if schedulingRan then ["scheduling"] else [])
      ++ (if schedulingRan && bookingCreated then ["customer"] else [])
  let healthScore := pred.report.overallHealthScore
  let status :=
    if healthScore < 50 then "critical"
    else if healthScore < 70 then "warning"
    else "healthy"
  ⟨stages, healthScore, status⟩

/-! ### Arithmetic helper lemmas -/

theorem floor_le_bankersRound (y : ℚ) : ⌊y⌋ ≤ bankersRound y := by
  unfold bankersRound
  split_ifs <;> omega

theorem bankersRound_nonneg {y : ℚ} (h : 0 ≤ y) : 0 ≤ bankersRound y :=
  le_trans (Int.le_floor.mpr (by exact_mod_cast h)) (floor_le_bankersRound y)

theorem le_bankersRound {n : ℤ} {y : ℚ} (h : (n : ℚ) ≤ y) : n ≤ bankersRound y :=
  le_trans (Int.le_floor.mpr h) (floor_le_bankersRound y)

theorem bankersRound_le {y : ℚ} {n : ℤ} (h : y ≤ (n : ℚ)) : bankersRound y ≤ n := by
  have hf : ⌊y⌋ ≤ n := by
    have h1 : ⌊y⌋ ≤ ⌊(n : ℚ)⌋ := Int.floor_le_floor h
    simpa using h1
  unfold bankersRound
  split_ifs with h1 h2 h3
  · exact hf
  · rcases lt_or_eq_of_le hf with hlt | heq
    · omega
    · exfalso
      rw [heq] at h2
      have : y - (n : ℚ) ≤ 0 := by linarith
      linarith
  · exact hf
  · rcases lt_or_eq_of_le hf with hlt | heq
    · omega
    · exfalso
      have hr : (1:ℚ)/2 ≤ y - (⌊y⌋ : ℚ) := not_lt.mp h1
      rw [heq] at hr
      have : y - (n : ℚ) ≤ 0 := by linarith
      linarith

theorem pyRound_nonneg (nd : ℕ) {x : ℚ} (h : 0 ≤ x) : 0 ≤ pyRound nd x := by
  unfold pyRound
  have hm : (0:ℚ) < 10 ^ nd := by positivity
  apply div_nonneg _ hm.le
  exact_mod_cast bankersRound_nonneg (mul_nonneg h hm.le)

theorem pyRound_le_int (nd : ℕ) {x : ℚ} (n : ℤ) (h : x ≤ (n : ℚ)) :
    pyRound nd x ≤ (n : ℚ) := by
  unfold pyRound
  have hm : (0:ℚ) < 10 ^ nd := by positivity
  rw [div_le_iff hm]
  have hb : bankersRound (x * 10 ^ nd) ≤ n * (10 : ℤ) ^ nd := by
    apply bankersRound_le
    push_cast
    exact mul_le_mul_of_nonneg_right h hm.le
  calc ((bankersRound (x * 10 ^ nd) : ℤ) : ℚ) ≤ ((n * (10 : ℤ) ^ nd : ℤ) : ℚ) := by
        exact_mod_cast hb
    _ = (n : ℚ) * 10 ^ nd := by push_cast; ring

theorem le_pyRound_int (nd : ℕ) {x : ℚ} (n : ℤ) (h : (n : ℚ) ≤ x) :
    (n : ℚ) ≤ pyRound nd x := by
  unfold pyRound
  have hm : (0:ℚ) < 10 ^ nd := by positivity
  rw [le_div_iff hm]
  have hb : n * (10 : ℤ) ^ nd ≤ bankersRound (x * 10 ^ nd) := by
    apply le_bankersRound
    push_cast
    exact mul_le_mul_of_nonneg_right h hm.le
  calc (n : ℚ) * 10 ^ nd = ((n * (10 : ℤ) ^ nd : ℤ) : ℚ) := by push_cast; ring
    _ ≤ ((bankersRound (x * 10 ^ nd) : ℤ) : ℚ) := by exact_mod_cast hb

theorem pyRound_intCast (nd : ℕ) (k : ℤ) : pyRound nd (k : ℚ) = (k : ℚ) :=
  le_antisymm (pyRound_le_int nd k le_rfl) (le_pyRound_int nd k le_rfl)

theorem pyInt_nonneg {x : ℚ} (h : 0 ≤ x) : 0 ≤ pyInt x := by
  unfold pyInt
  rw [if_pos h]
  exact Int.le_floor.mpr (by exact_mod_cast h)

theorem pyInt_intCast (n : ℤ) : pyInt (n : ℚ) = n := by
  unfold pyInt
  split_ifs with h
  · simp
  · rw [← Int.cast_neg, Int.floor_intCast]
    omega

theorem sum_le_length_mul {l : List ℚ} {b : ℚ} (h : ∀ x ∈ l, x ≤ b) :
    l.sum ≤ (l.length : ℚ) * b := by
  induction l with
  | nil => simp
  | cons a as ih =>
    have ha : a ≤ b := h a (List.mem_cons_self a as)
    have has : as.sum ≤ (as.length : ℚ) * b := ih fun x hx => h x (List.mem_cons_of_mem a hx)
    simp only [List.sum_cons, List.length_cons]
    push_cast
    linarith

theorem length_mul_le_sum {l : List ℚ} {a : ℚ} (h : ∀ x ∈ l, a ≤ x) :
    (l.length : ℚ) * a ≤ l.sum := by
  induction l with
  | nil => simp
  | cons c cs ih =>
    have hc : a ≤ c := h c (List.mem_cons_self c cs)
    have hcs : (cs.length : ℚ) * a ≤ cs.sum := ih fun x hx => h x (List.mem_cons_of_mem c hx)
    simp only [List.sum_cons, List.length_cons]
    push_cast
    linarith

theorem length_pos_rat {l : List ℚ} (h : l ≠ []) : (0 : ℚ) < (l.length : ℚ) := by
  have : 0 < l.length := List.length_pos.mpr h
  exact_mod_cast this

theorem mean_le {l : List ℚ} {b : ℚ} (hne : l ≠ []) (h : ∀ x ∈ l, x ≤ b) :
    mean l ≤ b := by
  unfold mean
  rw [div_le_iff (length_pos_rat hne)]
  calc l.sum ≤ (l.length : ℚ) * b := sum_le_length_mul h
    _ = b * (l.length : ℚ) := mul_comm _ _

theorem le_mean {l : List ℚ} {a : ℚ} (hne : l ≠ []) (h : ∀ x ∈ l, a ≤ x) :
    a ≤ mean l := by
  unfold mean
  rw [le_div_iff (length_pos_rat hne)]
  calc a * (l.length : ℚ) = (l.length : ℚ) * a := mul_comm _ _
    _ ≤ l.sum := length_mul_le_sum h

theorem sum_of_const {l : List ℚ} {c : ℚ} (h : ∀ x ∈ l, x = c) :
    l.sum = (l.length : ℚ) * c := by
  induction l with
  | nil => simp
  | cons a as ih =>
    have ha : a = c := h a (List.mem_cons_self a as)
    have has := ih fun x hx => h x (List.mem_cons_of_mem a hx)
    simp only [List.sum_cons, List.length_cons]
    push_cast
    rw [ha, has]
    ring

theorem mean_const {l : List ℚ} {c : ℚ} (hne : l ≠ []) (h : ∀ x ∈ l, x = c) :
    mean l = c := by
  unfold mean
  rw [sum_of_const h, mul_comm, mul_div_assoc, div_self (length_pos_rat hne).ne',
    mul_one]

theorem exists_lt_of_mean_lt {l : List ℚ} {b : ℚ} (hne : l ≠ []) (h : mean l < b) :
    ∃ x ∈ l, x < b := by
  by_contra hc
  push_neg at hc
  exact absurd h (not_lt.mpr (le_mean hne hc))

theorem assocFind_mem {α : Type} {l : List (String × α)} {key : String} {v : α}
    (h : assocFind l key = some v) : v ∈ l.map Prod.snd := by
  induction l with
  | nil => simp [assocFind] at h
  | cons p rest ih =>
    obtain ⟨k, w⟩ := p
    simp only [assocFind] at h
    simp only [List.map_cons, List.mem_cons]
    split_ifs at h with hk
    · left
      exact (Option.some.inj h).symm
    · right
      exact ih h

/-! ### Indicator scoring lemmas -/

theorem normalRanges_pos {ind : String} {r : ℚ × ℚ} (h : normalRanges ind = some r) :
    r.1 < r.2 := by
  have hm := assocFind_mem h
  simp only [normalRangesList, List.map_cons, List.map_nil, List.mem_cons,
    List.not_mem_nil, or_false] at hm
  rcases hm with h | h | h | h | h | h | h | h | h | h | h | h <;> rw [h] <;> norm_num

theorem deviationFor_nonneg {mn mx : ℚ} (hr : mn < mx) (v : ℚ) :
    0 ≤ deviationFor mn mx v := by
  unfold deviationFor
  split_ifs with h1 h2
  · have : 0 ≤ (mn - v) / ((mx - mn) * (1/2)) := div_nonneg (by linarith) (by linarith)
    linarith
  · have : 0 ≤ (v - mx) / ((mx - mn) * (1/2)) := div_nonneg (by linarith) (by linarith)
    linarith
  · exact div_nonneg (abs_nonneg _) (by linarith)

theorem rawScoreFor_bounds {mn mx : ℚ} (hr : mn < mx) (v : ℚ) :
    0 ≤ rawScoreFor mn mx v ∧ rawScoreFor mn mx v ≤ 100 := by
  unfold rawScoreFor
  refine ⟨le_max_left 0 _, max_le (by norm_num) ?_⟩
  have := mul_nonneg (deviationFor_nonneg hr v) (by norm_num : (0:ℚ) ≤ 30)
  linarith

theorem indicator_score_bounds (ind : String) (v : ℚ) :
    0 ≤ (calculate_indicator_health ind v).score ∧
      (calculate_indicator_health ind v).score ≤ 100 := by
  rcases h : normalRanges ind with _ | ⟨mn, mx⟩ <;>
    rw [calculate_indicator_health, h]
  · norm_num
  · have hr : mn < mx := normalRanges_pos h
    dsimp only
    obtain ⟨h0, h100⟩ := rawScoreFor_bounds hr v
    constructor
    · exact pyRound_nonneg 1 h0
    · have := pyRound_le_int 1 100 (by exact_mod_cast h100)
      exact_mod_cast this

theorem indicator_status_ne_normal_of_score_lt {ind : String} {v : ℚ}
    (h : (calculate_indicator_health ind v).score < 70) :
    (calculate_indicator_health ind v).status ≠ "normal" := by
  rcases hnr : normalRanges ind with _ | ⟨mn, mx⟩ <;>
    rw [calculate_indicator_health, hnr] at h ⊢
  · norm_num at h
  · dsimp only at h ⊢
    intro hnormal
    split_ifs at hnormal with h1 h2
    · exact absurd hnormal (by decide)
    · exact absurd hnormal (by decide)
    · have h70 : ((70 : ℤ) : ℚ) ≤ rawScoreFor mn mx v := by
        push_cast
        exact not_lt.mp h2
      have := le_pyRound_int 1 70 h70
      push_cast at this
      linarith

/-! ### Component health lemmas -/

theorem componentRecord_eq_some {today : ℕ} {t : Telemetry} {cfg : ComponentConfig}
    {rec : CompRec} (h : componentRecord today t cfg = some rec) :
    gatherScores t cfg ≠ [] ∧
    rec = ⟨pyRound 1 (mean (gatherScores t cfg)),
           pyRound 3 (1 - mean (gatherScores t cfg) / 100),
           statusFor (mean (gatherScores t cfg)),
           daysFor cfg (1 - mean (gatherScores t cfg) / 100),
           today + (max 1 (daysFor cfg (1 - mean (gatherScores t cfg) / 100))).toNat,
           gatherIssues t cfg,
           urgencyFor (daysFor cfg (1 - mean (gatherScores t cfg) / 100))⟩ := by
  unfold componentRecord at h
  split_ifs at h with hne
  dsimp only at h
  exact ⟨hne, (Option.some.inj h).symm⟩

theorem mem_analyze_component_health {now : ℕ} {t : Telemetry} {comp : String}
    {rec : CompRec} :
    (comp, rec) ∈ analyze_component_health now t ↔
      ∃ cfg, (comp, cfg) ∈ componentFailurePatterns ∧
        componentRecord (dateOf now) t cfg = some rec := by
  unfold analyze_component_health analyze_component_health_on
  rw [List.mem_filterMap]
  constructor
  · rintro ⟨⟨c, cfg⟩, hp, hmap⟩
    simp only [Option.map_eq_some'] at hmap
    obtain ⟨r, hr, heq⟩ := hmap
    obtain ⟨h1, h2⟩ := Prod.mk.injEq .. ▸ heq
    exact ⟨cfg, by rw [← h1]; exact hp, by rw [← h2]; exact hr⟩
  · rintro ⟨cfg, hmem, hcr⟩
    exact ⟨(comp, cfg), hmem, by simp [hcr]⟩

theorem gatherScores_mem_bounds {t : Telemetry} {cfg : ComponentConfig} :
    ∀ s ∈ gatherScores t cfg, 0 ≤ s ∧ s ≤ 100 := by
  intro s hs
  unfold gatherScores at hs
  rw [List.mem_filterMap] at hs
  obtain ⟨ind, _, hmap⟩ := hs
  rw [Option.map_eq_some'] at hmap
  obtain ⟨v, _, hv⟩ := hmap
  rw [← hv]
  exact indicator_score_bounds ind v

theorem avg_health_bounds {t : Telemetry} {cfg : ComponentConfig}
    (hne : gatherScores t cfg ≠ []) :
    0 ≤ mean (gatherScores t cfg) ∧ mean (gatherScores t cfg) ≤ 100 :=
  ⟨le_mean hne fun s hs => (gatherScores_mem_bounds s hs).1,
   mean_le hne fun s hs => (gatherScores_mem_bounds s hs).2⟩

theorem comp_rec_bounds {now : ℕ} {t : Telemetry} {e : String × CompRec}
    (h : e ∈ analyze_component_health now t) :
    (0 ≤ e.2.healthScore ∧ e.2.healthScore ≤ 100) ∧
      (0 ≤ e.2.failureRisk ∧ e.2.failureRisk ≤ 1) := by
  obtain ⟨comp, rec⟩ := e
  obtain ⟨cfg, _, hcr⟩ := mem_analyze_component_health.mp h
  obtain ⟨hne, hrec⟩ := componentRecord_eq_some hcr
  obtain ⟨h0, h100⟩ := avg_health_bounds hne
  subst hrec
  refine ⟨⟨pyRound_nonneg 1 h0, ?_⟩, ⟨pyRound_nonneg 3 (by linarith), ?_⟩⟩
  · have := pyRound_le_int 1 100 (by exact_mod_cast h100)
    exact_mod_cast this
  · have hx : 1 - mean (gatherScores t cfg) / 100 ≤ ((1 : ℤ) : ℚ) := by
      push_cast
      linarith
    have := pyRound_le_int 3 1 hx
    exact_mod_cast this

/-! ### Report projection lemmas -/

theorem gpr_timestamp (now : ℕ) (m : ModelState) (t : Telemetry) (vi : Option String) :
    (generate_prediction_report now m t vi).timestamp = now := rfl

theorem gpr_vehicleInfo (now : ℕ) (m : ModelState) (t : Telemetry) (vi : Option String) :
    (generate_prediction_report now m t vi).vehicleInfo = vi := rfl

theorem gpr_anomalyDetection (now : ℕ) (m : ModelState) (t : Telemetry) (vi : Option String) :
    (generate_prediction_report now m t vi).anomalyDetection = detect_anomalies m t := rfl

theorem gpr_failurePrediction (now : ℕ) (m : ModelState) (t : Telemetry) (vi : Option String) :
    (generate_prediction_report now m t vi).failurePrediction = predict_failure m t := rfl

theorem gpr_componentHealth (now : ℕ) (m : ModelState) (t : Telemetry) (vi : Option String) :
    (generate_prediction_report now m t vi).componentHealth = analyze_component_health now t := rfl

theorem gpr_overallHealthScore (now : ℕ) (m : ModelState) (t : Telemetry) (vi : Option String) :
    (generate_prediction_report now m t vi).overallHealthScore
      = pyRound 1 (overallOf (analyze_component_health now t)) := rfl

theorem gpr_criticalComponents (now : ℕ) (m : ModelState) (t : Telemetry) (vi : Option String) :
    (generate_prediction_report now m t vi).criticalComponents
      = componentsWithStatus "critical" (analyze_component_health now t) := rfl

theorem gpr_warningComponents (now : ℕ) (m : ModelState) (t : Telemetry) (vi : Option String) :
    (generate_prediction_report now m t vi).warningComponents
      = componentsWithStatus "warning" (analyze_component_health now t) := rfl

theorem gpr_recommendations (now : ℕ) (m : ModelState) (t : Telemetry) (vi : Option String) :
    (generate_prediction_report now m t vi).recommendations
      = sortRecs (recsOf (analyze_component_health now t)) := rfl

theorem gpr_ria (now : ℕ) (m : ModelState) (t : Telemetry) (vi : Option String) :
    (generate_prediction_report now m t vi).requiresImmediateAttention
      = (decide (0 < (componentsWithStatus "critical" (analyze_component_health now t)).length)
          || decide ((predict_failure m t).riskLevel = "critical")) := rfl

/-! ### Probability and confidence lemmas -/

theorem anomalyProbOf_bounds (a : ℚ) :
    0 ≤ anomalyProbOf a ∧ anomalyProbOf a ≤ 1 := by
  unfold anomalyProbOf
  have he : 0 < Real.exp ((a : ℝ) * 2) := Real.exp_pos _
  constructor
  · positivity
  · rw [div_le_one (by linarith)]
    linarith

theorem detect_anomalies_confidence_eq (m : ModelState) (t : Telemetry) :
    (detect_anomalies m t).confidence
      = (if |m.anomalyScoreFn (prepare_features t)| < 1/2 then
          |m.anomalyScoreFn (prepare_features t)| / (1/2) else 1) := rfl

theorem detect_anomalies_probability_eq (m : ModelState) (t : Telemetry) :
    (detect_anomalies m t).anomalyProbability
      = anomalyProbOf (m.anomalyScoreFn (prepare_features t)) := rfl

theorem detect_confidence_bounds (m : ModelState) (t : Telemetry) :
    0 ≤ (detect_anomalies m t).confidence ∧ (detect_anomalies m t).confidence ≤ 1 := by
  rw [detect_anomalies_confidence_eq]
  split_ifs with h
  · constructor
    · positivity
    · rw [div_le_one (by norm_num)]
      linarith
  · norm_num

theorem foldl_max_bounds {lo hi : ℚ} :
    ∀ (xs : List ℚ) (x : ℚ), lo ≤ x → x ≤ hi → (∀ p ∈ xs, lo ≤ p ∧ p ≤ hi) →
      lo ≤ xs.foldl max x ∧ xs.foldl max x ≤ hi := by
  intro xs
  induction xs with
  | nil => intro x h1 h2 _; exact ⟨h1, h2⟩
  | cons y ys ih =>
    intro x h1 h2 hall
    simp only [List.foldl_cons]
    exact ih (max x y) (le_trans h1 (le_max_left x y))
      (max_le h2 (hall y (List.mem_cons_self y ys)).2)
      fun p hp => hall p (List.mem_cons_of_mem y hp)

theorem pyMaxList_bounds {l : List ℚ} {lo hi : ℚ} (hne : l ≠ [])
    (h : ∀ p ∈ l, lo ≤ p ∧ p ≤ hi) : lo ≤ pyMaxList l ∧ pyMaxList l ≤ hi := by
  cases l with
  | nil => exact absurd rfl hne
  | cons x xs =>
    have hx := h x (List.mem_cons_self x xs)
    exact foldl_max_bounds xs x hx.1 hx.2 fun p hp => h p (List.mem_cons_of_mem x hp)

theorem predict_failure_bounds {m : ModelState} {t : Telemetry}
    (hne : m.probaFn (prepare_features t) ≠ [])
    (hb : ∀ p ∈ m.probaFn (prepare_features t), 0 ≤ p ∧ p ≤ 1) :
    (0 ≤ (predict_failure m t).failureProbability ∧
        (predict_failure m t).failureProbability ≤ 1) ∧
      (0 ≤ (predict_failure m t).confidence ∧ (predict_failure m t).confidence ≤ 1) := by
  have hfp : (predict_failure m t).failureProbability
      = (if 1 < (m.probaFn (prepare_features t)).length then
          (m.probaFn (prepare_features t)).getD 1 0 else 0) := rfl
  have hcf : (predict_failure m t).confidence
      = pyMaxList (m.probaFn (prepare_features t)) := rfl
  rw [hfp, hcf]
  constructor
  · split_ifs with h
    · have hget : (m.probaFn (prepare_features t)).getD 1 0
          ∈ m.probaFn (prepare_features t) := by
        rw [List.getD_eq_getElem _ _ h]
        exact List.getElem_mem h
      exact hb _ hget
    · norm_num
  · exact pyMaxList_bounds hne hb

theorem analyzer_health_eq (t : Telemetry) :
    (analyze_telemetry_anomalies t).healthScore
      = max 0 (100 - ((analyze_telemetry_anomalies t).severityScore : ℤ)) := rfl

theorem overall_score_bounds (now : ℕ) (t : Telemetry) :
    0 ≤ pyRound 1 (overallOf (analyze_component_health now t)) ∧
      pyRound 1 (overallOf (analyze_component_health now t)) ≤ 100 := by
  have hb : 0 ≤ overallOf (analyze_component_health now t) ∧
      overallOf (analyze_component_health now t) ≤ 100 := by
    unfold overallOf
    split_ifs with h
    · norm_num
    · have hmem : ∀ q ∈ (analyze_component_health now t).map fun p => p.2.healthScore,
          0 ≤ q ∧ q ≤ 100 := by
        intro q hq
        rw [List.mem_map] at hq
        obtain ⟨p, hp, hpq⟩ := hq
        rw [← hpq]
        exact (comp_rec_bounds hp).1
      have hne : (analyze_component_health now t).map (fun p => p.2.healthScore) ≠ [] := by
        simpa using h
      exact ⟨le_mean hne fun q hq => (hmem q hq).1,
             mean_le hne fun q hq => (hmem q hq).2⟩
  refine ⟨pyRound_nonneg 1 hb.1, ?_⟩
  have := pyRound_le_int 1 100 (by exact_mod_cast hb.2)
  exact_mod_cast this

/-- C1: every health score the core emits — per-indicator score, per-component
health score, the report's overall health score, and the anomaly analyzer's
health score — lies in [0,100]; and every emitted risk or probability — the
per-component failure risk, the classifier's failure probability and
confidence (given that the fitted classifier returns a non-empty vector of
class probabilities), the anomaly probability and the detector's
confidence — lies in [0,1]. -/
theorem health_and_probability_ranges :
    (∀ ind v, 0 ≤ (calculate_indicator_health ind v).score ∧
        (calculate_indicator_health ind v).score ≤ 100)
    ∧ (∀ now t, ∀ e ∈ analyze_component_health now t,
        (0 ≤ e.2.healthScore ∧ e.2.healthScore ≤ 100) ∧
          (0 ≤ e.2.failureRisk ∧ e.2.failureRisk ≤ 1))
    ∧ (∀ now m t vi,
        0 ≤ (generate_prediction_report now m t vi).overallHealthScore ∧
          (generate_prediction_report now m t vi).overallHealthScore ≤ 100)
    ∧ (∀ t, 0 ≤ (analyze_telemetry_anomalies t).healthScore ∧
        (analyze_telemetry_anomalies t).healthScore ≤ 100)
    ∧ (∀ m t, 0 ≤ (detect_anomalies m t).anomalyProbability ∧
        (detect_anomalies m t).anomalyProbability ≤ 1)
    ∧ (∀ m t, 0 ≤ (detect_anomalies m t).confidence ∧
        (detect_anomalies m t).confidence ≤ 1)
    ∧ (∀ m t, m.probaFn (prepare_features t) ≠ [] →
        (∀ p ∈ m.probaFn (prepare_features t), 0 ≤ p ∧ p ≤ 1) →
        (0 ≤ (predict_failure m t).failureProbability ∧
            (predict_failure m t).failureProbability ≤ 1) ∧
          (0 ≤ (predict_failure m t).confidence ∧
            (predict_failure m t).confidence ≤ 1)) := by
  refine ⟨indicator_score_bounds, ?_, ?_, ?_, ?_, ?_, ?_⟩
  · intro now t e he
    exact comp_rec_bounds he
  · intro now m t vi
    rw [gpr_overallHealthScore]
    exact overall_score_bounds now t
  · intro t
    rw [analyzer_health_eq]
    refine ⟨le_max_left 0 _, max_le (by norm_num) ?_⟩
    have : (0 : ℤ) ≤ ((analyze_telemetry_anomalies t).severityScore : ℤ) :=
      Int.natCast_nonneg _
    omega
  · intro m t
    rw [detect_anomalies_probability_eq]
    exact anomalyProbOf_bounds _
  · exact detect_confidence_bounds
  · intro m t hne hb
    exact predict_failure_bounds hne hb

/-! ### Concrete evaluation lemmas

Closed-form evaluations of the embedding at the concrete telemetry snapshots
used to instantiate the theorems below.  Kernel reduction cannot normalize
rational-field arithmetic, so these are established once with `norm_num`. -/

/-- Telemetry whose only reading is a dead battery (voltage 0). -/
def telBat0 : Telemetry :=
  ⟨none, none, some 0, none, none, none, none, none, none, none, none, none, none, []⟩

/-- The battery record the engine produces for `telBat0`. -/
def batRec0 : CompRec :=
  ⟨0, 1, "critical", 0, 1, [⟨"battery_voltage", 0, "critical", 589/50⟩], "immediate"⟩

/-- Telemetry whose only reading is an engine temperature exactly at the band
midpoint. -/
def telMid : Telemetry :=
  ⟨some 95, none, none, none, none, none, none, none, none, none, none, none, none, []⟩

def engineRecMid : CompRec := ⟨100, 0, "healthy", 365, 365, [], "scheduled"⟩

def coolRecMid : CompRec := ⟨100, 0, "healthy", 545, 545, [], "scheduled"⟩

/-- Telemetry whose only reading is a severely overheated engine. -/
def telHot : Telemetry :=
  ⟨some 150, none, none, none, none, none, none, none, none, none, none, none, none, []⟩

def engineRecHot : CompRec :=
  ⟨0, 1, "critical", 0, 1, [⟨"engine_temp", 150, "critical", 11/2⟩], "immediate"⟩

def coolRecHot : CompRec :=
  ⟨0, 1, "critical", 0, 1, [⟨"engine_temp", 150, "critical", 11/2⟩], "immediate"⟩

/-- A fitted-model stand-in whose classifier returns the two-class
distribution [1/2, 1/2]. -/
def halfModel : ModelState := ⟨fun _ => 0, fun _ => false, fun _ => [1/2, 1/2]⟩

theorem cih_bv0 : calculate_indicator_health "battery_voltage" 0
    = ⟨0, "critical", 589/50⟩ := by
  rw [calculate_indicator_health,
    show normalRanges "battery_voltage" = some (124/10, 147/10) from rfl]
  norm_num [deviationFor, rawScoreFor, pyRound, bankersRound]

theorem cih_et95 : calculate_indicator_health "engine_temp" 95
    = ⟨100, "normal", 0⟩ := by
  rw [calculate_indicator_health,
    show normalRanges "engine_temp" = some (85, 105) from rfl]
  norm_num [deviationFor, rawScoreFor, pyRound, bankersRound]

theorem cih_et150 : calculate_indicator_health "engine_temp" 150
    = ⟨0, "critical", 11/2⟩ := by
  rw [calculate_indicator_health,
    show normalRanges "engine_temp" = some (85, 105) from rfl]
  norm_num [deviationFor, rawScoreFor, pyRound, bankersRound]

theorem gs_bat0 :
    gatherScores telBat0 ⟨["battery_voltage"], 6/10, 730⟩ = [0] := by
  simp [gatherScores, show tGet telBat0 "battery_voltage" = some 0 from rfl, cih_bv0]

theorem gi_bat0 :
    gatherIssues telBat0 ⟨["battery_voltage"], 6/10, 730⟩
      = [⟨"battery_voltage", 0, "critical", 589/50⟩] := by
  simp [gatherIssues, show tGet telBat0 "battery_voltage" = some 0 from rfl, cih_bv0]

theorem cr_bat0 : componentRecord 0 telBat0 ⟨["battery_voltage"], 6/10, 730⟩
    = some batRec0 := by
  rw [componentRecord, gs_bat0, gi_bat0]
  norm_num [mean, daysFor, pyInt, statusFor, urgencyFor, pyRound, bankersRound, batRec0]

theorem gs_bat0_rest :
    (gatherScores telBat0 ⟨["engine_temp", "oil_pressure", "vibration_level", "rpm"], 7/10, 365⟩ = [])
    ∧ (gatherScores telBat0 ⟨["brake_wear", "vibration_level"], 65/100, 180⟩ = [])
    ∧ (gatherScores telBat0 ⟨["engine_temp", "coolant_temp"], 7/10, 545⟩ = [])
    ∧ (gatherScores telBat0 ⟨["tire_pressure_fl", "tire_pressure_fr", "tire_pressure_rl", "tire_pressure_rr"], 1/2, 365⟩ = [])
    ∧ (gatherScores telBat0 ⟨["vibration_level", "rpm", "speed"], 3/4, 730⟩ = []) := by
  refine ⟨?_, ?_, ?_, ?_, ?_⟩ <;>
    simp [gatherScores,
      show tGet telBat0 "engine_temp" = none from rfl,
      show tGet telBat0 "oil_pressure" = none from rfl,
      show tGet telBat0 "vibration_level" = none from rfl,
      show tGet telBat0 "rpm" = none from rfl,
      show tGet telBat0 "speed" = none from rfl,
      show tGet telBat0 "brake_wear" = none from rfl,
      show tGet telBat0 "coolant_temp" = none from rfl,
      show tGet telBat0 "tire_pressure_fl" = none from rfl,
      show tGet telBat0 "tire_pressure_fr" = none from rfl,
      show tGet telBat0 "tire_pressure_rl" = none from rfl,
      show tGet telBat0 "tire_pressure_rr" = none from rfl]

theorem ach_telBat0 : analyze_component_health 0 telBat0 = [("battery", batRec0)] := by
  rw [analyze_component_health, analyze_component_health_on,
    show dateOf 0 = 0 from rfl, componentFailurePatterns]
  simp only [List.filterMap_cons, List.filterMap_nil]
  rw [cr_bat0]
  rw [show componentRecord 0 telBat0 ⟨["engine_temp", "oil_pressure", "vibration_level", "rpm"], 7/10, 365⟩ = none by
    rw [componentRecord, gs_bat0_rest.1]; simp]
  rw [show componentRecord 0 telBat0 ⟨["brake_wear", "vibration_level"], 65/100, 180⟩ = none by
    rw [componentRecord, gs_bat0_rest.2.1]; simp]
  rw [show componentRecord 0 telBat0 ⟨["engine_temp", "coolant_temp"], 7/10, 545⟩ = none by
    rw [componentRecord, gs_bat0_rest.2.2.1]; simp]
  rw [show componentRecord 0 telBat0 ⟨["tire_pressure_fl", "tire_pressure_fr", "tire_pressure_rl", "tire_pressure_rr"], 1/2, 365⟩ = none by
    rw [componentRecord, gs_bat0_rest.2.2.2.1]; simp]
  rw [show componentRecord 0 telBat0 ⟨["vibration_level", "rpm", "speed"], 3/4, 730⟩ = none by
    rw [componentRecord, gs_bat0_rest.2.2.2.2]; simp]
  simp

/-- Witness for C1 at concrete inputs. -/
theorem health_and_probability_ranges_witness :
    ((0 ≤ batRec0.healthScore ∧ batRec0.healthScore ≤ 100) ∧
      (0 ≤ batRec0.failureRisk ∧ batRec0.failureRisk ≤ 1)) ∧
    ((0 ≤ (predict_failure halfModel emptyTel).failureProbability ∧
        (predict_failure halfModel emptyTel).failureProbability ≤ 1) ∧
      (0 ≤ (predict_failure halfModel emptyTel).confidence ∧
        (predict_failure halfModel emptyTel).confidence ≤ 1)) :=
  ⟨health_and_probability_ranges.2.1 0 telBat0 ("battery", batRec0)
    (by rw [ach_telBat0]; exact List.mem_cons_self _ _),
   health_and_probability_ranges.2.2.2.2.2.2 halfModel emptyTel
    (by rw [show halfModel.probaFn (prepare_features emptyTel) = [1/2, 1/2] from rfl]
        simp)
    (by rw [show halfModel.probaFn (prepare_features emptyTel) = [1/2, 1/2] from rfl]
        intro p hp
        simp only [List.mem_cons, List.not_mem_nil, or_false, or_self] at hp
        rw [hp]
        norm_num)⟩

theorem gs_mid_engine :
    gatherScores telMid ⟨["engine_temp", "oil_pressure", "vibration_level", "rpm"], 7/10, 365⟩
      = [100] := by
  simp [gatherScores, cih_et95,
    show tGet telMid "engine_temp" = some 95 from rfl,
    show tGet telMid "oil_pressure" = none from rfl,
    show tGet telMid "vibration_level" = none from rfl,
    show tGet telMid "rpm" = none from rfl]

theorem gs_mid_cooling :
    gatherScores telMid ⟨["engine_temp", "coolant_temp"], 7/10, 545⟩ = [100] := by
  simp [gatherScores, cih_et95,
    show tGet telMid "engine_temp" = some 95 from rfl,
    show tGet telMid "coolant_temp" = none from rfl]

theorem gi_mid_engine :
    gatherIssues telMid ⟨["engine_temp", "oil_pressure", "vibration_level", "rpm"], 7/10, 365⟩
      = [] := by
  simp [gatherIssues, cih_et95,
    show tGet telMid "engine_temp" = some 95 from rfl,
    show tGet telMid "oil_pressure" = none from rfl,
    show tGet telMid "vibration_level" = none from rfl,
    show tGet telMid "rpm" = none from rfl]

theorem gi_mid_cooling :
    gatherIssues telMid ⟨["engine_temp", "coolant_temp"], 7/10, 545⟩ = [] := by
  simp [gatherIssues, cih_et95,
    show tGet telMid "engine_temp" = some 95 from rfl,
    show tGet telMid "coolant_temp" = none from rfl]

theorem cr_mid_engine :
    componentRecord 0 telMid ⟨["engine_temp", "oil_pressure", "vibration_level", "rpm"], 7/10, 365⟩
      = some engineRecMid := by
  rw [componentRecord, gs_mid_engine, gi_mid_engine]
  norm_num [mean, daysFor, pyInt, statusFor, urgencyFor, pyRound, bankersRound, engineRecMid]
  rfl

theorem cr_mid_cooling :
    componentRecord 0 telMid ⟨["engine_temp", "coolant_temp"], 7/10, 545⟩
      = some coolRecMid := by
  rw [componentRecord, gs_mid_cooling, gi_mid_cooling]
  norm_num [mean, daysFor, pyInt, statusFor, urgencyFor, pyRound, bankersRound, coolRecMid]
  rfl

theorem gs_mid_rest :
    (gatherScores telMid ⟨["battery_voltage"], 6/10, 730⟩ = [])
    ∧ (gatherScores telMid ⟨["brake_wear", "vibration_level"], 65/100, 180⟩ = [])
    ∧ (gatherScores telMid ⟨["tire_pressure_fl", "tire_pressure_fr", "tire_pressure_rl", "tire_pressure_rr"], 1/2, 365⟩ = [])
    ∧ (gatherScores telMid ⟨["vibration_level", "rpm", "speed"], 3/4, 730⟩ = []) := by
  refine ⟨?_, ?_, ?_, ?_⟩ <;>
    simp [gatherScores,
      show tGet telMid "battery_voltage" = none from rfl,
      show tGet telMid "vibration_level" = none from rfl,
      show tGet telMid "rpm" = none from rfl,
      show tGet telMid "speed" = none from rfl,
      show tGet telMid "brake_wear" = none from rfl,
      show tGet telMid "tire_pressure_fl" = none from rfl,
      show tGet telMid "tire_pressure_fr" = none from rfl,
      show tGet telMid "tire_pressure_rl" = none from rfl,
      show tGet telMid "tire_pressure_rr" = none from rfl]

theorem ach_telMid : analyze_component_health 0 telMid
    = [("engine", engineRecMid), ("cooling_system", coolRecMid)] := by
  rw [analyze_component_health, analyze_component_health_on,
    show dateOf 0 = 0 from rfl, componentFailurePatterns]
  simp only [List.filterMap_cons, List.filterMap_nil]
  rw [cr_mid_engine, cr_mid_cooling]
  rw [show componentRecord 0 telMid ⟨["battery_voltage"], 6/10, 730⟩ = none by
    rw [componentRecord, gs_mid_rest.1]; simp]
  rw [show componentRecord 0 telMid ⟨["brake_wear", "vibration_level"], 65/100, 180⟩ = none by
    rw [componentRecord, gs_mid_rest.2.1]; simp]
  rw [show componentRecord 0 telMid ⟨["tire_pressure_fl", "tire_pressure_fr", "tire_pressure_rl", "tire_pressure_rr"], 1/2, 365⟩ = none by
    rw [componentRecord, gs_mid_rest.2.2.1]; simp]
  rw [show componentRecord 0 telMid ⟨["vibration_level", "rpm", "speed"], 3/4, 730⟩ = none by
    rw [componentRecord, gs_mid_rest.2.2.2]; simp]
  simp

theorem gs_hot_engine :
    gatherScores telHot ⟨["engine_temp", "oil_pressure", "vibration_level", "rpm"], 7/10, 365⟩
      = [0] := by
  simp [gatherScores, cih_et150,
    show tGet telHot "engine_temp" = some 150 from rfl,
    show tGet telHot "oil_pressure" = none from rfl,
    show tGet telHot "vibration_level" = none from rfl,
    show tGet telHot "rpm" = none from rfl]

theorem gs_hot_cooling :
    gatherScores telHot ⟨["engine_temp", "coolant_temp"], 7/10, 545⟩ = [0] := by
  simp [gatherScores, cih_et150,
    show tGet telHot "engine_temp" = some 150 from rfl,
    show tGet telHot "coolant_temp" = none from rfl]

theorem gi_hot_engine :
    gatherIssues telHot ⟨["engine_temp", "oil_pressure", "vibration_level", "rpm"], 7/10, 365⟩
      = [⟨"engine_temp", 150, "critical", 11/2⟩] := by
  simp [gatherIssues, cih_et150,
    show tGet telHot "engine_temp" = some 150 from rfl,
    show tGet telHot "oil_pressure" = none from rfl,
    show tGet telHot "vibration_level" = none from rfl,
    show tGet telHot "rpm" = none from rfl]

theorem gi_hot_cooling :
    gatherIssues telHot ⟨["engine_temp", "coolant_temp"], 7/10, 545⟩
      = [⟨"engine_temp", 150, "critical", 11/2⟩] := by
  simp [gatherIssues, cih_et150,
    show tGet telHot "engine_temp" = some 150 from rfl,
    show tGet telHot "coolant_temp" = none from rfl]

theorem cr_hot_engine :
    componentRecord 0 telHot ⟨["engine_temp", "oil_pressure", "vibration_level", "rpm"], 7/10, 365⟩
      = some engineRecHot := by
  rw [componentRecord, gs_hot_engine, gi_hot_engine]
  norm_num [mean, daysFor, pyInt, statusFor, urgencyFor, pyRound, bankersRound, engineRecHot]

theorem cr_hot_cooling :
    componentRecord 0 telHot ⟨["engine_temp", "coolant_temp"], 7/10, 545⟩
      = some coolRecHot := by
  rw [componentRecord, gs_hot_cooling, gi_hot_cooling]
  norm_num [mean, daysFor, pyInt, statusFor, urgencyFor, pyRound, bankersRound, coolRecHot]

theorem gs_hot_rest :
    (gatherScores telHot ⟨["battery_voltage"], 6/10, 730⟩ = [])
    ∧ (gatherScores telHot ⟨["brake_wear", "vibration_level"], 65/100, 180⟩ = [])
    ∧ (gatherScores telHot ⟨["tire_pressure_fl", "tire_pressure_fr", "tire_pressure_rl", "tire_pressure_rr"], 1/2, 365⟩ = [])
    ∧ (gatherScores telHot ⟨["vibration_level", "rpm", "speed"], 3/4, 730⟩ = []) := by
  refine ⟨?_, ?_, ?_, ?_⟩ <;>
    simp [gatherScores,
      show tGet telHot "battery_voltage" = none from rfl,
      show tGet telHot "vibration_level" = none from rfl,
      show tGet telHot "rpm" = none from rfl,
      show tGet telHot "speed" = none from rfl,
      show tGet telHot "brake_wear" = none from rfl,
      show tGet telHot "tire_pressure_fl" = none from rfl,
      show tGet telHot "tire_pressure_fr" = none from rfl,
      show tGet telHot "tire_pressure_rl" = none from rfl,
      show tGet telHot "tire_pressure_rr" = none from rfl]

theorem ach_telHot : analyze_component_health 0 telHot
    = [("engine", engineRecHot), ("cooling_system", coolRecHot)] := by
  rw [analyze_component_health, analyze_component_health_on,
    show dateOf 0 = 0 from rfl, componentFailurePatterns]
  simp only [List.filterMap_cons, List.filterMap_nil]
  rw [cr_hot_engine, cr_hot_cooling]
  rw [show componentRecord 0 telHot ⟨["battery_voltage"], 6/10, 730⟩ = none by
    rw [componentRecord, gs_hot_rest.1]; simp]
  rw [show componentRecord 0 telHot ⟨["brake_wear", "vibration_level"], 65/100, 180⟩ = none by
    rw [componentRecord, gs_hot_rest.2.1]; simp]
  rw [show componentRecord 0 telHot ⟨["tire_pressure_fl", "tire_pressure_fr", "tire_pressure_rl", "tire_pressure_rr"], 1/2, 365⟩ = none by
    rw [componentRecord, gs_hot_rest.2.2.1]; simp]
  rw [show componentRecord 0 telHot ⟨["vibration_level", "rpm", "speed"], 3/4, 730⟩ = none by
    rw [componentRecord, gs_hot_rest.2.2.2]; simp]
  simp

/-! ### C2: days_to_potential_failure -/

theorem patterns_cfg_facts :
    ∀ p ∈ componentFailurePatterns,
      0 < p.2.failureThreshold ∧ 0 ≤ p.2.mtbfDays ∧ 30 ≤ p.2.mtbfDays := by
  intro p hp
  fin_cases hp <;> norm_num

theorem daysFor_nonneg {cfg : ComponentConfig} {risk : ℚ}
    (hm : 0 ≤ cfg.mtbfDays) (hr : risk ≤ 1) : 0 ≤ daysFor cfg risk := by
  have hm' : (0 : ℚ) ≤ (cfg.mtbfDays : ℚ) := by exact_mod_cast hm
  unfold daysFor
  split_ifs
  · exact pyInt_nonneg (by nlinarith)
  · exact pyInt_nonneg (by nlinarith)

/-- C2 counterexample: a dead battery yields a stored
`days_to_potential_failure` of 0, violating the claimed floor at 1. -/
theorem days_floor_counterexample :
    ("battery", batRec0) ∈ analyze_component_health 0 telBat0 ∧
      ¬(1 ≤ batRec0.daysToPotentialFailure) :=
  ⟨by rw [ach_telBat0]; exact List.mem_cons_self _ _, by norm_num [batRec0]⟩

/-- C2 amended: the stored `days_to_potential_failure` is an integer ≥ 0, and
the `max(1, ·)` floor is applied only inside the predicted-failure-date
computation, which therefore always lands at least one day after the current
date. -/
theorem days_to_failure_amended :
    ∀ now t, ∀ e ∈ analyze_component_health now t,
      0 ≤ e.2.daysToPotentialFailure ∧
      e.2.predictedFailureDate = dateOf now + (max 1 e.2.daysToPotentialFailure).toNat ∧
      dateOf now + 1 ≤ e.2.predictedFailureDate := by
  intro now t e he
  obtain ⟨cfg, hcfgmem, hcr⟩ := mem_analyze_component_health.mp he
  obtain ⟨hne, hrec⟩ := componentRecord_eq_some hcr
  have havg := avg_health_bounds hne
  have hmtbf := (patterns_cfg_facts _ hcfgmem).2.1
  have hd : 0 ≤ daysFor cfg (1 - mean (gatherScores t cfg) / 100) :=
    daysFor_nonneg hmtbf (by linarith [havg.1])
  rw [hrec]
  dsimp only
  refine ⟨hd, rfl, ?_⟩
  have : 1 ≤ (max 1 (daysFor cfg (1 - mean (gatherScores t cfg) / 100))).toNat := by
    omega
  omega

/-- Witness for the amended C2 at a concrete input. -/
theorem days_to_failure_amended_witness :
    0 ≤ batRec0.daysToPotentialFailure ∧
    batRec0.predictedFailureDate = dateOf 0 + (max 1 batRec0.daysToPotentialFailure).toNat ∧
    dateOf 0 + 1 ≤ batRec0.predictedFailureDate :=
  days_to_failure_amended 0 telBat0 ("battery", batRec0)
    (by rw [ach_telBat0]; exact List.mem_cons_self _ _)

/-! ### C3: scheduling gating -/

/-- C3: in every orchestration run, the scheduling stage executes iff the
prediction stage's `requires_scheduling` flag is set AND the diagnosis stage
actually ran; in particular scheduling never runs without a prior diagnosis,
even when `requires_scheduling` is true. -/
theorem scheduling_gating (now : ℕ) (m : ModelState) (t : Telemetry) (vi : Option String) :
    "scheduling" ∈ (orchestrate now m t vi).stages ↔
      ((predictionProcess now m t vi).requiresScheduling = true ∧
        "diagnosis" ∈ (orchestrate now m t vi).stages) := by
  cases hrd : decide (0 < ((generate_prediction_report now m t vi).criticalComponents).length) <;>
    cases hrs : (generate_prediction_report now m t vi).requiresImmediateAttention <;>
      simp [orchestrate, predictionProcess, hrd, hrs]

/-! ### C4: requires_immediate_attention -/

/-- C4: the report's `requires_immediate_attention` flag is true iff the
critical-components list is non-empty or the failure classifier's risk level
is "critical". -/
theorem ria_iff (now : ℕ) (m : ModelState) (t : Telemetry) (vi : Option String) :
    (generate_prediction_report now m t vi).requiresImmediateAttention = true ↔
      ((generate_prediction_report now m t vi).criticalComponents ≠ [] ∨
        (generate_prediction_report now m t vi).failurePrediction.riskLevel = "critical") := by
  rw [gpr_ria, gpr_criticalComponents, gpr_failurePrediction]
  simp [List.length_pos]

/-! ### C5: temperature-issue knowledge-base selection -/

theorem sel_hot : selectKBEntry "engine" ⟨"engine_temp", 150, "critical", 11/2⟩ = none := by
  rw [selectKBEntry]
  simp [show strContains (strLower "engine_temp") "temp" = true from rfl,
    show strContains "critical" "high" = false from rfl,
    show strContains (strLower "engine_temp") "pressure" = false from rfl,
    show strContains (strLower "engine_temp") "voltage" = false from rfl,
    show strContains (strLower "engine_temp") "vibration" = false from rfl,
    show strContains (strLower "engine_temp") "wear" = false from rfl]

theorem dc_hot : diagnose_component "engine" engineRecHot
    = ⟨"engine", 0, 1, "Unknown cause", ["Unknown cause"], ["General inspection"],
       100, 120, ["Oil filter", "Spark plugs", "Engine oil"]⟩ := by
  rw [diagnose_component]
  rw [show engineRecHot.issues = [⟨"engine_temp", 150, "critical", 11/2⟩] from rfl,
    show engineRecHot.healthScore = 0 from rfl,
    show engineRecHot.failureRisk = 1 from rfl]
  simp only [List.foldl_cons, List.foldl_nil]
  rw [show diagStep "engine" ([], [], 1) ⟨"engine_temp", 150, "critical", 11/2⟩
      = (["Unknown cause"], ["General inspection"], 1) by rw [diagStep, sel_hot]; simp]
  simp [dedupFirst, repairTimeMap, estimateParts, assocFind]
  norm_num [pyRound, bankersRound]

/-- C5 counterexample: the engine's record for a severely overheated engine
(value 150, far above the [85,105] band, so the indicator is out of band on
the high side with status "critical") does not select the engine's
high-temperature knowledge-base entry: the diagnosis accumulates only the
generic "Unknown cause"/"General inspection" entries, because the code's
branch condition demands the literal substring "high" inside the issue's
status string, and engine-produced statuses are only "warning"/"critical". -/
theorem temp_issue_counterexample :
    ("engine", engineRecHot) ∈ analyze_component_health 0 telHot ∧
    engineRecHot.issues = [⟨"engine_temp", 150, "critical", 11/2⟩] ∧
    normalRanges "engine_temp" = some (85, 105) ∧ (105 : ℚ) < 150 ∧
    (diagnose_component "engine" engineRecHot).possibleCauses = ["Unknown cause"] ∧
    "Coolant leak" ∉ (diagnose_component "engine" engineRecHot).possibleCauses := by
  refine ⟨by rw [ach_telHot]; exact List.mem_cons_self _ _, rfl, rfl, by norm_num, ?_, ?_⟩
  · rw [dc_hot]
  · rw [dc_hot]
    simp

/-- C5 amended: the high-temperature entry (with the coolant-specific
fallback) is selected, and its causes and actions accumulated, exactly for
issues whose indicator name contains "temp" and whose status string literally
contains the substring "high"; statuses produced by the engine ("warning",
"critical") never satisfy this. -/
theorem temp_issue_amended :
    ∀ (comp : String) (acc : List String × List String × ℚ) (issue : Issue),
      strContains (strLower issue.indicator) "temp" = true →
      strContains issue.status "high" = true →
      selectKBEntry comp issue
          = ((kbGet comp "high_temp").orElse fun _ => kbGet comp "high_coolant_temp") ∧
      diagStep comp acc issue
          = (match (kbGet comp "high_temp").orElse (fun _ => kbGet comp "high_coolant_temp") with
            | some e => (acc.1 ++ e.possibleCauses, acc.2.1 ++ e.recommendedActions,
                max acc.2.2 e.severityMultiplier)
            | none => (acc.1 ++ ["Unknown cause"], acc.2.1 ++ ["General inspection"],
                max acc.2.2 1)) := by
  intro comp acc issue h1 h2
  have hsel : selectKBEntry comp issue
      = (kbGet comp "high_temp").orElse fun _ => kbGet comp "high_coolant_temp" := by
    rw [selectKBEntry]
    simp [h1, h2]
  exact ⟨hsel, by rw [diagStep, hsel]⟩

/-- Witness for the amended C5 at a concrete issue whose status string is
literally "high". -/
theorem temp_issue_amended_witness :
    selectKBEntry "engine" ⟨"engine_temp", 120, "high", 0⟩
        = ((kbGet "engine" "high_temp").orElse fun _ => kbGet "engine" "high_coolant_temp") ∧
    diagStep "engine" ([], [], 1) ⟨"engine_temp", 120, "high", 0⟩
        = (match (kbGet "engine" "high_temp").orElse (fun _ => kbGet "engine" "high_coolant_temp") with
          | some e => ([] ++ e.possibleCauses, [] ++ e.recommendedActions,
              max 1 e.severityMultiplier)
          | none => ([] ++ ["Unknown cause"], [] ++ ["General inspection"], max 1 1)) :=
  temp_issue_amended "engine" ([], [], 1) ⟨"engine_temp", 120, "high", 0⟩ rfl rfl

/-! ### C6: run-to-run determinism of the report -/

theorem ach_congr {n₁ n₂ : ℕ} (t : Telemetry) (h : dateOf n₁ = dateOf n₂) :
    analyze_component_health n₁ t = analyze_component_health n₂ t := by
  unfold analyze_component_health
  rw [h]

/-- C6 counterexample: two runs on the same engine state with identical
telemetry and identical vehicle info are not bit-identical, because the
report embeds the wall-clock timestamp, which differs between the runs. -/
theorem report_clock_counterexample :
    generate_prediction_report 0 halfModel emptyTel none
      ≠ generate_prediction_report 1 halfModel emptyTel none := by
  intro h
  have h2 := congrArg Report.timestamp h
  rw [gpr_timestamp, gpr_timestamp] at h2
  exact absurd h2 (by norm_num)

/-- C6 amended: the report is a pure function of (clock, fitted-model state,
telemetry, vehicle info); two runs whose clock readings fall on the same
calendar date agree on every field except the timestamp. -/
theorem report_determinism_amended :
    ∀ (n₁ n₂ : ℕ) (m : ModelState) (t : Telemetry) (vi : Option String),
      dateOf n₁ = dateOf n₂ →
      (generate_prediction_report n₁ m t vi).vehicleInfo
          = (generate_prediction_report n₂ m t vi).vehicleInfo ∧
      (generate_prediction_report n₁ m t vi).anomalyDetection
          = (generate_prediction_report n₂ m t vi).anomalyDetection ∧
      (generate_prediction_report n₁ m t vi).failurePrediction
          = (generate_prediction_report n₂ m t vi).failurePrediction ∧
      (generate_prediction_report n₁ m t vi).componentHealth
          = (generate_prediction_report n₂ m t vi).componentHealth ∧
      (generate_prediction_report n₁ m t vi).overallHealthScore
          = (generate_prediction_report n₂ m t vi).overallHealthScore ∧
      (generate_prediction_report n₁ m t vi).criticalComponents
          = (generate_prediction_report n₂ m t vi).criticalComponents ∧
      (generate_prediction_report n₁ m t vi).warningComponents
          = (generate_prediction_report n₂ m t vi).warningComponents ∧
      (generate_prediction_report n₁ m t vi).recommendations
          = (generate_prediction_report n₂ m t vi).recommendations ∧
      (generate_prediction_report n₁ m t vi).requiresImmediateAttention
          = (generate_prediction_report n₂ m t vi).requiresImmediateAttention := by
  intro n₁ n₂ m t vi h
  have hc := ach_congr t h
  refine ⟨rfl, rfl, rfl, ?_, ?_, ?_, ?_, ?_, ?_⟩ <;>
    simp only [gpr_componentHealth, gpr_overallHealthScore, gpr_criticalComponents,
      gpr_warningComponents, gpr_recommendations, gpr_ria, hc]

/-- Witness for the amended C6: clock ticks 0 and 1 fall on the same date. -/
theorem report_determinism_amended_witness :
    (generate_prediction_report 0 halfModel emptyTel none).vehicleInfo
        = (generate_prediction_report 1 halfModel emptyTel none).vehicleInfo ∧
    (generate_prediction_report 0 halfModel emptyTel none).anomalyDetection
        = (generate_prediction_report 1 halfModel emptyTel none).anomalyDetection ∧
    (generate_prediction_report 0 halfModel emptyTel none).failurePrediction
        = (generate_prediction_report 1 halfModel emptyTel none).failurePrediction ∧
    (generate_prediction_report 0 halfModel emptyTel none).componentHealth
        = (generate_prediction_report 1 halfModel emptyTel none).componentHealth ∧
    (generate_prediction_report 0 halfModel emptyTel none).overallHealthScore
        = (generate_prediction_report 1 halfModel emptyTel none).overallHealthScore ∧
    (generate_prediction_report 0 halfModel emptyTel none).criticalComponents
        = (generate_prediction_report 1 halfModel emptyTel none).criticalComponents ∧
    (generate_prediction_report 0 halfModel emptyTel none).warningComponents
        = (generate_prediction_report 1 halfModel emptyTel none).warningComponents ∧
    (generate_prediction_report 0 halfModel emptyTel none).recommendations
        = (generate_prediction_report 1 halfModel emptyTel none).recommendations ∧
    (generate_prediction_report 0 halfModel emptyTel none).requiresImmediateAttention
        = (generate_prediction_report 1 halfModel emptyTel none).requiresImmediateAttention :=
  report_determinism_amended 0 1 halfModel emptyTel none rfl

/-! ### C7: the anomaly analyzer's contract -/

theorem sum_map_const_nat {α : Type} (l : List α) (c : ℕ) :
    (l.map fun _ => c).sum = c * l.length := by
  induction l with
  | nil => simp
  | cons a as ih =>
    simp only [List.map_cons, List.sum_cons, List.length_cons, ih]
    ring

theorem analyzer_status_eq (t : Telemetry) :
    (analyze_telemetry_anomalies t).overallStatus
      = (if 50 ≤ (analyze_telemetry_anomalies t).severityScore then "critical"
         else if 20 ≤ (analyze_telemetry_anomalies t).severityScore then "warning"
         else "healthy") := rfl

/-- C7: the analyzer's health score is `max(0, 100 - severity_score)`; its
overall status is "critical" iff severity ≥ 50, "warning" iff 20 ≤ severity
< 50 and "healthy" iff severity < 20; and the severity score is the sum of
the per-check increments: the scalar-indicator checks (+30 critical, +15
warning), the per-wheel tire checks (+20 critical, +10 warning) and +25 per
fault code. -/
theorem analyzer_contract (t : Telemetry) :
    (analyze_telemetry_anomalies t).healthScore
        = max 0 (100 - ((analyze_telemetry_anomalies t).severityScore : ℤ))
    ∧ ((analyze_telemetry_anomalies t).overallStatus = "critical" ↔
        50 ≤ (analyze_telemetry_anomalies t).severityScore)
    ∧ ((analyze_telemetry_anomalies t).overallStatus = "warning" ↔
        (20 ≤ (analyze_telemetry_anomalies t).severityScore ∧
          (analyze_telemetry_anomalies t).severityScore < 50))
    ∧ ((analyze_telemetry_anomalies t).overallStatus = "healthy" ↔
        (analyze_telemetry_anomalies t).severityScore < 20)
    ∧ (analyze_telemetry_anomalies t).severityScore
        = ((scalarChecks t).map fun c => (checkScalar c.1 c.2.1 c.2.2).2).sum
          + ((tireChecks t).map fun c => (checkTire c.1 c.2).2).sum
          + 25 * t.errorCodes.length := by
  refine ⟨rfl, ?_, ?_, ?_, ?_⟩
  · rw [analyzer_status_eq]
    split_ifs with h1 h2 <;> simp <;> omega
  · rw [analyzer_status_eq]
    split_ifs with h1 h2 <;> simp <;> omega
  · rw [analyzer_status_eq]
    split_ifs with h1 h2 <;> simp <;> omega
  · have hsev : (analyze_telemetry_anomalies t).severityScore
        = (((scalarChecks t).map fun c => checkScalar c.1 c.2.1 c.2.2).map Prod.snd).sum
          + (((tireChecks t).map fun c => checkTire c.1 c.2).map Prod.snd).sum
          + ((t.errorCodes.map checkCode).map Prod.snd).sum := rfl
    rw [hsev]
    simp only [List.map_map]
    have hcode : (t.errorCodes.map (Prod.snd ∘ checkCode)).sum
        = 25 * t.errorCodes.length := by
      have : (Prod.snd ∘ checkCode) = fun _ => (25 : ℕ) := rfl
      rw [this, sum_map_const_nat]
    rw [hcode]
    rfl

/-! ### C8: fully healthy components -/

theorem patterns_key_unique {c : String} {e₁ e₂ : ComponentConfig}
    (h₁ : (c, e₁) ∈ componentFailurePatterns)
    (h₂ : (c, e₂) ∈ componentFailurePatterns) : e₁ = e₂ := by
  simp only [componentFailurePatterns, List.mem_cons, List.not_mem_nil, or_false,
    Prod.mk.injEq] at h₁ h₂
  rcases h₁ with ⟨hc, rfl⟩ | ⟨hc, rfl⟩ | ⟨hc, rfl⟩ | ⟨hc, rfl⟩ | ⟨hc, rfl⟩ | ⟨hc, rfl⟩ <;>
    rcases h₂ with ⟨hc', rfl⟩ | ⟨hc', rfl⟩ | ⟨hc', rfl⟩ | ⟨hc', rfl⟩ | ⟨hc', rfl⟩ | ⟨hc', rfl⟩ <;>
      first
        | rfl
        | (rw [hc] at hc'; exact absurd hc' (by simp))

theorem pyRound_zero (nd : ℕ) : pyRound nd 0 = 0 := by
  unfold pyRound bankersRound
  norm_num

/-- C8: a component all of whose present indicators score a perfect 100 has
failure risk 0, days-to-failure equal to the configured MTBF, and
maintenance urgency "scheduled" (the configured MTBF being at least 30
days). -/
theorem healthy_component_defaults :
    ∀ (now : ℕ) (t : Telemetry) (comp : String) (cfg : ComponentConfig) (rec : CompRec),
      (comp, cfg) ∈ componentFailurePatterns →
      (comp, rec) ∈ analyze_component_health now t →
      (30 : ℤ) ≤ cfg.mtbfDays →
      (∀ ind ∈ cfg.indicators, ∀ v, tGet t ind = some v →
        (calculate_indicator_health ind v).score = 100) →
      rec.healthScore = 100 ∧ rec.failureRisk = 0 ∧
        rec.daysToPotentialFailure = cfg.mtbfDays ∧
        rec.maintenanceUrgency = "scheduled" := by
  intro now t comp cfg rec hcfg hmem hm30 hscores
  obtain ⟨cfg', hcfg', hcr⟩ := mem_analyze_component_health.mp hmem
  have hcc : cfg' = cfg := patterns_key_unique hcfg' hcfg
  rw [hcc] at hcr
  obtain ⟨hne, hrec⟩ := componentRecord_eq_some hcr
  have hall : ∀ s ∈ gatherScores t cfg, s = 100 := by
    intro s hs
    unfold gatherScores at hs
    rw [List.mem_filterMap] at hs
    obtain ⟨ind, hind, hmap⟩ := hs
    rw [Option.map_eq_some'] at hmap
    obtain ⟨v, hv, hsv⟩ := hmap
    rw [← hsv]
    exact hscores ind hind v hv
  have havg : mean (gatherScores t cfg) = 100 := mean_const hne hall
  have hth : 0 < cfg.failureThreshold := (patterns_cfg_facts _ hcfg).1
  have hdays : daysFor cfg (1 - mean (gatherScores t cfg) / 100) = cfg.mtbfDays := by
    rw [havg]
    unfold daysFor
    rw [if_neg (by norm_num; linarith)]
    norm_num [pyInt_intCast]
  rw [hrec]
  dsimp only
  refine ⟨?_, ?_, hdays, ?_⟩
  · rw [havg]
    have : ((100 : ℤ) : ℚ) = (100 : ℚ) := by norm_num
    rw [← this, pyRound_intCast]
  · rw [havg]
    norm_num [pyRound_zero]
  · rw [hdays]
    unfold urgencyFor
    rw [if_neg (by omega), if_neg (by omega)]

/-- Witness for C8: the engine component of `telMid`, whose only present
indicator sits exactly at the band midpoint. -/
theorem healthy_component_defaults_witness :
    engineRecMid.healthScore = 100 ∧ engineRecMid.failureRisk = 0 ∧
      engineRecMid.daysToPotentialFailure
        = (⟨["engine_temp", "oil_pressure", "vibration_level", "rpm"], 7/10, 365⟩
            : ComponentConfig).mtbfDays ∧
      engineRecMid.maintenanceUrgency = "scheduled" :=
  healthy_component_defaults 0 telMid "engine"
    ⟨["engine_temp", "oil_pressure", "vibration_level", "rpm"], 7/10, 365⟩ engineRecMid
    (by rw [componentFailurePatterns]; exact List.mem_cons_self _ _)
    (by rw [ach_telMid]; exact List.mem_cons_self _ _)
    (by norm_num)
    (by
      intro ind hind v hv
      fin_cases hind
      · rw [show tGet telMid "engine_temp" = some 95 from rfl] at hv
        have h95 : (95 : ℚ) = v := Option.some.inj hv
        rw [← h95, cih_et95]
      · rw [show tGet telMid "oil_pressure" = none from rfl] at hv
        exact absurd hv (by simp)
      · rw [show tGet telMid "vibration_level" = none from rfl] at hv
        exact absurd hv (by simp)
      · rw [show tGet telMid "rpm" = none from rfl] at hv
        exact absurd hv (by simp))

/-! ### C9: feature preparation never fails -/

/-- The telemetry snapshot with every scored field present at its nominal
default value. -/
def telNominal : Telemetry :=
  ⟨some 95, some 45, some (27/2), some 3000, some 60, some 1, some 20, some 90,
   some 32, some 32, some 32, some 32, none, []⟩

/-- C9: `prepare_features` is total — it always yields the 9-entry feature
vector, substituting the fixed nominal default for every absent field, so the
empty mapping produces the nominal vector and `detect_anomalies` /
`predict_failure` behave on the empty mapping exactly as on the explicit
nominal snapshot rather than failing. -/
theorem prepare_features_defaults :
    (∀ t, (prepare_features t).length = 9)
    ∧ prepare_features emptyTel = [95, 45, 27/2, 3000, 60, 1, 20, 90, 32]
    ∧ (∀ t, t.engineTemp = none → (prepare_features t).getD 0 0 = 95)
    ∧ (∀ t, t.oilPressure = none → (prepare_features t).getD 1 0 = 45)
    ∧ (∀ t, t.batteryVoltage = none → (prepare_features t).getD 2 0 = 27/2)
    ∧ (∀ t, t.rpm = none → (prepare_features t).getD 3 0 = 3000)
    ∧ (∀ t, t.speed = none → (prepare_features t).getD 4 0 = 60)
    ∧ (∀ t, t.vibrationLevel = none → (prepare_features t).getD 5 0 = 1)
    ∧ (∀ t, t.brakeWear = none → (prepare_features t).getD 6 0 = 20)
    ∧ (∀ t, t.coolantTemp = none → (prepare_features t).getD 7 0 = 90)
    ∧ (∀ t, t.tirePressureFL = none → t.tirePressureFR = none →
        t.tirePressureRL = none → t.tirePressureRR = none →
        (prepare_features t).getD 8 0 = 32)
    ∧ (∀ m, detect_anomalies m emptyTel = detect_anomalies m telNominal)
    ∧ (∀ m, predict_failure m emptyTel = predict_failure m telNominal) := by
  refine ⟨fun t => rfl, ?_, ?_, ?_, ?_, ?_, ?_, ?_, ?_, ?_, ?_, fun m => rfl, fun m => rfl⟩
  · norm_num [prepare_features, emptyTel, mean]
  all_goals
    intro t
    intro h
    first
      | (intro h2 h3 h4
         simp [prepare_features, h, h2, h3, h4, mean]
         norm_num)
      | simp [prepare_features, h]

/-- Witness for C9: the defaults at the empty telemetry mapping. -/
theorem prepare_features_defaults_witness :
    (prepare_features emptyTel).getD 0 0 = 95 ∧
    (prepare_features emptyTel).getD 2 0 = 27/2 ∧
    (prepare_features emptyTel).getD 8 0 = 32 :=
  ⟨prepare_features_defaults.2.2.1 emptyTel rfl,
   prepare_features_defaults.2.2.2.2.1 emptyTel rfl,
   prepare_features_defaults.2.2.2.2.2.2.2.2.2.2.1 emptyTel rfl rfl rfl rfl⟩

/-! ### C10: unhealthy components always yield substantive diagnoses -/

theorem dedupFirst_subset_aux :
    ∀ (n : ℕ) (l : List String), l.length ≤ n → ∀ x ∈ dedupFirst l, x ∈ l := by
  intro n
  induction n with
  | zero =>
    intro l hl x hx
    have : l = [] := List.length_eq_zero.mp (Nat.le_zero.mp hl)
    subst this
    simp [dedupFirst] at hx
  | succ n ih =>
    intro l hl x hx
    cases l with
    | nil => simp [dedupFirst] at hx
    | cons a as =>
      rw [dedupFirst] at hx
      rcases List.mem_cons.mp hx with h | h
      · rw [h]
        exact List.mem_cons_self a as
      · have hlen : (as.filter fun b => b ≠ a).length ≤ n := by
          have := List.length_filter_le (fun b => b ≠ a) as
          simp only [List.length_cons] at hl
          omega
        exact List.mem_cons_of_mem a (List.mem_of_mem_filter (ih _ hlen x h))

theorem dedupFirst_subset (l : List String) : ∀ x ∈ dedupFirst l, x ∈ l :=
  dedupFirst_subset_aux l.length l le_rfl

theorem dedupFirst_ne_nil {l : List String} (h : l ≠ []) : dedupFirst l ≠ [] := by
  cases l with
  | nil => exact absurd rfl h
  | cons a as => simp [dedupFirst]

theorem take_four_ne_nil {l : List String} (h : l ≠ []) : l.take 4 ≠ [] := by
  cases l <;> simp_all

theorem headD_mem {l : List String} (h : l ≠ []) (d : String) : l.headD d ∈ l := by
  cases l with
  | nil => exact absurd rfl h
  | cons a as => simp

/-- Every cause string any knowledge-base entry (or the generic fallback) can
contribute. -/
def allKBCauses : List String :=
  ["Coolant leak", "Thermostat failure", "Radiator blockage", "Water pump failure",
   "Oil leak", "Worn oil pump", "Clogged oil filter", "Wrong oil viscosity",
   "Engine mount wear", "Misfiring cylinder", "Unbalanced components", "Worn bearings",
   "Aging battery", "Alternator failure", "Parasitic drain", "Loose connections",
   "Normal wear", "Aggressive driving", "Stuck caliper", "Warped rotors",
   "Low coolant", "Thermostat stuck", "Fan failure", "Head gasket leak",
   "Slow puncture", "Valve stem leak", "Temperature change", "Rim damage",
   "Unknown cause"]

theorem kb_entry_facts :
    ∀ x ∈ knowledgeBase, x.2.2.possibleCauses ≠ [] ∧ x.2.2.recommendedActions ≠ [] ∧
      ∀ c ∈ x.2.2.possibleCauses, c ∈ allKBCauses := by
  intro x hx
  fin_cases hx <;> refine ⟨by simp, by simp, ?_⟩ <;> intro c hc <;>
    fin_cases hc <;> simp [allKBCauses]

theorem kbGet_facts {comp key : String} {e : KBEntry} (h : kbGet comp key = some e) :
    e.possibleCauses ≠ [] ∧ e.recommendedActions ≠ [] ∧
      ∀ c ∈ e.possibleCauses, c ∈ allKBCauses := by
  unfold kbGet at h
  rw [Option.map_eq_some'] at h
  obtain ⟨x, hfind, hx⟩ := h
  rw [← hx]
  exact kb_entry_facts x (List.mem_of_find?_eq_some hfind)

theorem orElse_eq_some {α : Type} {o : Option α} {f : Unit → Option α} {e : α}
    (h : o.orElse f = some e) : o = some e ∨ f () = some e := by
  cases o with
  | none => right; simpa [Option.orElse] using h
  | some a => left; simpa [Option.orElse] using h

theorem selectKBEntry_facts {comp : String} {issue : Issue} {e : KBEntry}
    (h : selectKBEntry comp issue = some e) :
    e.possibleCauses ≠ [] ∧ e.recommendedActions ≠ [] ∧
      ∀ c ∈ e.possibleCauses, c ∈ allKBCauses := by
  rw [selectKBEntry] at h
  split_ifs at h
  · rcases orElse_eq_some h with h' | h' <;> exact kbGet_facts h'
  · rcases orElse_eq_some h with h' | h' <;> exact kbGet_facts h'
  · exact kbGet_facts h
  · exact kbGet_facts h
  · exact kbGet_facts h

theorem diagStep_spec (comp : String) (acc : List String × List String × ℚ)
    (issue : Issue) :
    ∃ cs as q, diagStep comp acc issue = (acc.1 ++ cs, acc.2.1 ++ as, q) ∧
      cs ≠ [] ∧ as ≠ [] ∧ (∀ c ∈ cs, c ∈ allKBCauses) := by
  unfold diagStep
  cases h : selectKBEntry comp issue with
  | none =>
    exact ⟨["Unknown cause"], ["General inspection"], _, rfl, by simp, by simp,
      by simp [allKBCauses]⟩
  | some e =>
    obtain ⟨h1, h2, h3⟩ := selectKBEntry_facts h
    exact ⟨e.possibleCauses, e.recommendedActions, _, rfl, h1, h2, h3⟩

theorem foldl_diagStep_spec (comp : String) :
    ∀ (issues : List Issue) (acc : List String × List String × ℚ),
      ∃ cs as, (issues.foldl (diagStep comp) acc).1 = acc.1 ++ cs
        ∧ (issues.foldl (diagStep comp) acc).2.1 = acc.2.1 ++ as
        ∧ (∀ c ∈ cs, c ∈ allKBCauses)
        ∧ (issues ≠ [] → (cs ≠ [] ∧ as ≠ [])) := by
  intro issues
  induction issues with
  | nil =>
    intro acc
    exact ⟨[], [], by simp, by simp, by simp, fun h => absurd rfl h⟩
  | cons i is ih =>
    intro acc
    obtain ⟨cs₀, as₀, q₀, hstep, hcs₀, has₀, hsub₀⟩ := diagStep_spec comp acc i
    obtain ⟨cs₁, as₁, h1, h2, hsub₁, _⟩ := ih (diagStep comp acc i)
    refine ⟨cs₀ ++ cs₁, as₀ ++ as₁, ?_, ?_, ?_,
      fun _ => ⟨List.append_ne_nil_of_left_ne_nil hcs₀ _,
                List.append_ne_nil_of_left_ne_nil has₀ _⟩⟩
    · rw [List.foldl_cons, h1, hstep]
      simp
    · rw [List.foldl_cons, h2, hstep]
      simp
    · intro c hc
      rcases List.mem_append.mp hc with h | h
      · exact hsub₀ c h
      · exact hsub₁ c h

theorem diagnose_component_nonempty (comp : String) {health : CompRec}
    (h : health.issues ≠ []) :
    (diagnose_component comp health).possibleCauses ≠ [] ∧
      (diagnose_component comp health).recommendedActions ≠ [] ∧
      (diagnose_component comp health).primaryCause ≠ "Requires inspection" := by
  obtain ⟨cs, as, h1, h2, hsub, hnn⟩ := foldl_diagStep_spec comp health.issues ([], [], 1)
  obtain ⟨hcs, has⟩ := hnn h
  have hc1 : (health.issues.foldl (diagStep comp) ([], [], 1)).1 = cs := by simpa using h1
  have ha1 : (health.issues.foldl (diagStep comp) ([], [], 1)).2.1 = as := by simpa using h2
  have hpc : (diagnose_component comp health).possibleCauses = (dedupFirst cs).take 4 := by
    rw [diagnose_component]
    dsimp only
    rw [hc1]
  have hra : (diagnose_component comp health).recommendedActions
      = (dedupFirst as).take 4 := by
    rw [diagnose_component]
    dsimp only
    rw [ha1]
  have hprim : (diagnose_component comp health).primaryCause
      = ((dedupFirst cs).take 4).headD "Requires inspection" := by
    rw [diagnose_component]
    dsimp only
    rw [hc1]
  have hpcne : (dedupFirst cs).take 4 ≠ [] := take_four_ne_nil (dedupFirst_ne_nil hcs)
  refine ⟨by rw [hpc]; exact hpcne,
    by rw [hra]; exact take_four_ne_nil (dedupFirst_ne_nil has), ?_⟩
  rw [hprim]
  have hmem : ((dedupFirst cs).take 4).headD "Requires inspection"
      ∈ (dedupFirst cs).take 4 := headD_mem hpcne _
  have huniv : ((dedupFirst cs).take 4).headD "Requires inspection" ∈ allKBCauses :=
    hsub _ (dedupFirst_subset cs _ (List.take_subset 4 (dedupFirst cs) hmem))
  intro heq
  rw [heq] at huniv
  exact absurd huniv (by simp [allKBCauses])

/-- C10: every component that `analyze_component_health` reports with status
"warning" or "critical" carries a non-empty issues list, and the Diagnosis
Mapper's record for it has non-empty possible causes and recommended actions,
so the generic "Requires inspection" primary-cause fallback is unreachable
for engine-produced component health. -/
theorem unhealthy_components_have_issues :
    ∀ now t, ∀ e ∈ analyze_component_health now t,
      (e.2.status = "warning" ∨ e.2.status = "critical") →
      e.2.issues ≠ [] ∧
      (diagnose_component e.1 e.2).possibleCauses ≠ [] ∧
      (diagnose_component e.1 e.2).recommendedActions ≠ [] ∧
      (diagnose_component e.1 e.2).primaryCause ≠ "Requires inspection" := by
  intro now t e he hst
  obtain ⟨cfg, hcfgmem, hcr⟩ := mem_analyze_component_health.mp he
  obtain ⟨hne, hrec⟩ := componentRecord_eq_some hcr
  have havg : mean (gatherScores t cfg) < 70 := by
    rw [hrec] at hst
    dsimp only at hst
    unfold statusFor at hst
    split_ifs at hst with hlt50 hlt70
    · linarith
    · exact hlt70
    · rcases hst with h | h <;> exact absurd h (by simp)
  obtain ⟨s, hs, hs70⟩ := exists_lt_of_mean_lt hne havg
  unfold gatherScores at hs
  rw [List.mem_filterMap] at hs
  obtain ⟨ind, hind, hmap⟩ := hs
  rw [Option.map_eq_some'] at hmap
  obtain ⟨v, hv, hsv⟩ := hmap
  have hstat : (calculate_indicator_health ind v).status ≠ "normal" :=
    indicator_status_ne_normal_of_score_lt (by rw [hsv]; exact hs70)
  have hissue : (⟨ind, v, (calculate_indicator_health ind v).status,
      (calculate_indicator_health ind v).deviation⟩ : Issue) ∈ gatherIssues t cfg := by
    unfold gatherIssues
    rw [List.mem_filterMap]
    refine ⟨ind, hind, ?_⟩
    rw [hv]
    simp [hstat]
  have hissne : e.2.issues ≠ [] := by
    rw [hrec]
    exact List.ne_nil_of_mem hissue
  obtain ⟨d1, d2, d3⟩ := diagnose_component_nonempty e.1 hissne
  exact ⟨hissne, d1, d2, d3⟩

/-- Witness for C10: the critical battery record of `telBat0`. -/
theorem unhealthy_components_have_issues_witness :
    batRec0.issues ≠ [] ∧
    (diagnose_component "battery" batRec0).possibleCauses ≠ [] ∧
    (diagnose_component "battery" batRec0).recommendedActions ≠ [] ∧
    (diagnose_component "battery" batRec0).primaryCause ≠ "Requires inspection" :=
  unhealthy_components_have_issues 0 telBat0 ("battery", batRec0)
    (by rw [ach_telBat0]; exact List.mem_cons_self _ _)
    (Or.inr rfl)

end AutoSense
